import Mathlib

/-!
Verification development for the ai-newsroom-mcp-server repository.

The Python source under src/ is shallowly embedded below. Conventions used
throughout the embedding:

* Python floats are idealised as real numbers; float values that the code
  writes as decimal literals with exact small denominators (confidences,
  sort keys after rounding) are carried as rationals.
* Article timestamps are ISO-8601 strings in the source, parsed by
  the helper that the code names with a leading underscore
  (personalizer.py, lines 15-26) into UTC instants. The embedding works
  with the parsed result directly: a timestamp is `Option ℝ` (seconds,
  UTC), `none` standing for a missing or unparsable string. The "now"
  argument threaded through the ranking definitions models the value of
  `datetime.now(tz=timezone.utc)` that the Python function reads
  internally (personalizer.py, line 91); the Python signature itself does
  not expose such a parameter.
* Python dicts are insertion ordered; they are embedded as lists of
  records, with lookups that keep the last binding for a duplicated key,
  matching dict-comprehension semantics.
* The outcome of one round-trip to the delegated LLM service (the
  functions in newsroom/llm.py built on top of the JSON-call helper
  `_call_json_response`) is modelled as an explicit `CallResult` argument
  carrying either the parsed JSON payload, a RuntimeError raised by the
  helper itself (missing credentials, malformed completion object,
  response body that is not valid JSON), or an uncaught exception from the
  SDK call (timeout, connection failure) — which is not a RuntimeError and
  therefore passes through the stages' `except RuntimeError` handlers.
  The payload is inspected by the code only through `.get(key, [])` and
  per-item `isinstance` tests; the `Payload` type records exactly those
  observations. Stage results are `PyOutcome` values: a returned value, a
  catchable RuntimeError, or an uncaught exception.
* `round(x, 3)` is idealised as exact rounding of a real number to the
  nearest thousandth (Mathlib `round`, halves up; Python rounds halves to
  even, a difference only visible at exact half-thousandths).
-/

namespace Newsroom

/-! ## Data model (src/newsroom/types.py) -/

structure Article where
  id : String
  source : String
  title : String
  url : String
  timestamp : Option ℝ
  author : String
  content : String

structure Passage where
  id : String
  article_id : String
  order : Nat
  text : String
deriving DecidableEq

structure EntityMention where
  span : String
  type : String
  passage_id : String
  article_id : String
  context : String
deriving DecidableEq

structure ResolvedEntity where
  span : String
  canonical_id : String
  confidence : ℚ
  type : String
  passage_id : String
  article_id : String
deriving DecidableEq

structure TaggedEntity where
  entity : String
  canonical_id : String
  category : String
  passage_id : String
  article_id : String
deriving DecidableEq

structure TagSummary where
  tag : String
  canonical_id : String
  category : String
  highlights : List String
  article_ids : List String
deriving DecidableEq

structure TopicPrediction where
  passage_id : String
  topic : String
  confidence : ℚ
deriving DecidableEq

structure Reference where
  source : String
  url : String
deriving DecidableEq

structure CheckedClaim where
  claim : String
  status : String
  references : List Reference
deriving DecidableEq

structure RankedStory where
  article_id : String
  title : String
  url : String
  score : ℚ
  reason : String
deriving DecidableEq

/-- Reader profile as consumed by the rankers: the four preference fields,
each a list of strings (`user_profile.get(key, [])` in the source; an absent
field is the empty list). -/
structure ReaderProfile where
  preferred_topics : List String
  priority_entities : List String
  favourite_sources : List String
  blocked_sources : List String

/-! ## String helpers shared by the embedding

Python string primitives are modelled by structural recursion over the
character list of a string (ASCII-faithful; the sample data is ASCII). -/

/-- Python `s.lower()` (ASCII case folding). -/
def pyLower (s : String) : String :=
  ⟨s.data.map Char.toLower⟩

/-- Python `s.strip()`: drop leading and trailing whitespace. -/
def pyStrip (s : String) : String :=
  ⟨((s.data.dropWhile Char.isWhitespace).reverse.dropWhile Char.isWhitespace).reverse⟩

/-- Python `sep.join(xs)`. -/
def pyJoin (sep : String) : List String → String
  | [] => ""
  | [x] => x
  | x :: xs => x ++ sep ++ pyJoin sep xs

/-- Python `s[:n]` (first n code points). -/
def pyTake (s : String) (n : Nat) : String :=
  ⟨s.data.take n⟩

/-- Does the second list occur as a prefix of the first? -/
def startsWithList : List Char → List Char → Bool
  | _, [] => true
  | [], _ :: _ => false
  | h :: hs, n :: ns => h = n && startsWithList hs ns

/-- Does the first list occur inside the second? -/
def containsSubList (needle : List Char) : List Char → Bool
  | [] => startsWithList [] needle
  | c :: t => startsWithList (c :: t) needle || containsSubList needle t

/-- Python `needle in hay` on strings (substring containment). -/
def pyContains (hay needle : String) : Bool :=
  containsSubList needle.data hay.data

/-- Accumulating worker for `pyWords`. -/
def pyWordsAux (cur : List Char) : List Char → List String
  | [] => if cur = [] then [] else [⟨cur⟩]
  | c :: cs =>
    if Char.isWhitespace c then
      if cur = [] then pyWordsAux [] cs else ⟨cur⟩ :: pyWordsAux [] cs
    else pyWordsAux (cur ++ [c]) cs

/-- Python `s.split()`: split on whitespace runs, dropping empty pieces. -/
def pyWords (s : String) : List String :=
  pyWordsAux [] s.data

/-- Accumulating worker for `pySplitNewline`. -/
def pySplitNewlineAux (cur : List Char) : List Char → List String
  | [] => [⟨cur⟩]
  | c :: cs =>
    if c = '\n' then ⟨cur⟩ :: pySplitNewlineAux [] cs
    else pySplitNewlineAux (cur ++ [c]) cs

/-- Python `s.split("\n")` (empty pieces kept). -/
def pySplitNewline (s : String) : List String :=
  pySplitNewlineAux [] s.data

/-- Last-binding-wins association lookup, as a Python dict comprehension
`{key(x): x for x in xs}` followed by `.get`. -/
def dictGet (keyOf : α → String) (xs : List α) (k : String) : Option α :=
  xs.foldl (fun acc x => if keyOf x = k then some x else acc) none

/-- Lookup in a literal table (Python `table.get(k, d)`). -/
def tableGet (table : List (String × String)) (k d : String) : String :=
  match table.find? (fun kv => kv.1 = k) with
  | some kv => kv.2
  | none => d

/-! ## Personalizer (src/tools/personalizer.py) -/

/-- `_ensure_str_set` (personalizer.py, lines 11-12): strip, lowercase, and
drop blank entries. The Python set is represented by a list with the same
membership; truthiness of the set is emptiness of this list. -/
def ensure_str_set (values : List String) : List String :=
  values.filterMap (fun v => if pyStrip v = "" then none else some (pyLower (pyStrip v)))

/-- `_validate_summary` (personalizer.py, lines 29-50). The required-keys
check is enforced by the record type here; the runtime content checks
(non-blank highlights, non-empty article ids) are embedded. -/
def validate_summary (summary : TagSummary) : Option TagSummary :=
  let highlights := summary.highlights.filter (fun t => pyStrip t ≠ "")
  let article_ids := summary.article_ids.filter (fun a => a ≠ "")
  if highlights = [] ∨ article_ids = [] then none
  else some { tag := summary.tag, canonical_id := summary.canonical_id,
              category := summary.category, highlights := highlights,
              article_ids := article_ids }

/-- `_recency_weight` (personalizer.py, lines 53-61) on a parsed timestamp. -/
noncomputable def recency_weight (timestamp : Option ℝ) (now : ℝ) : ℝ :=
  match timestamp with
  | none => 0
  | some published => Real.exp (-(max ((now - published) / 3600) 0) / 48)

/-- `_highlight_density` (personalizer.py, lines 64-69). -/
noncomputable def highlight_density (highlights : List String) : ℝ :=
  let words := pyWords (pyJoin " " highlights)
  if words = [] then 0 else min ((words.length : ℝ) / 80) 1

/-- The additive scoring model of personalize_and_rank (personalizer.py,
lines 114-139), with the two article-dependent factors (recency weight and
favourite-source flag) abstracted as arguments. -/
noncomputable def scoreParts (topic entity keyword fav : Bool) (hs recency : ℝ) : ℝ :=
  0.6 + (if topic then 1 else 0) + (if entity then 1.2 else 0)
    + (if keyword ∧ ¬topic then 0.5 else 0) + 0.8 * hs + 0.7 * recency
    + (if fav then 0.4 else 0)

/-- Exact rounding to three decimals: Python `round(score, 3)` idealised over
the reals (see the header note on half-to-even vs. halves-up). -/
noncomputable def round3 (x : ℝ) : ℚ :=
  (round (1000 * x) : ℚ) / 1000

/-- Article lookup of personalize_and_rank (personalizer.py, line 88):
articles with a falsy id are not keyed; a duplicated id keeps the last
article. -/
def article_lookup (articles : List Article) (aid : String) : Option Article :=
  articles.foldl (fun acc a => if a.id ≠ "" ∧ a.id = aid then some a else acc) none

/-- One iteration of the inner loop of personalize_and_rank
(personalizer.py, lines 107-166): build the ranked candidate for one article
id of a validated summary, or drop it when the backing source is blocked. -/
noncomputable def candidate_for (blocked favs : List String)
    (topic entity keyword : Bool) (hs : ℝ) (s : TagSummary)
    (articles : List Article) (now : ℝ) (aid : String) : Option RankedStory :=
  let article := article_lookup articles aid
  let source_lower := match article with
    | some a => pyLower a.source
    | none => ""
  if source_lower ≠ "" ∧ blocked.contains source_lower then none
  else
    let recency : ℝ := match article with
      | some a => recency_weight a.timestamp now
      | none => 0
    let fav : Bool := match article with
      | some a => favs ≠ [] ∧ favs.contains (pyLower a.source)
      | none => false
    let score := scoreParts topic entity keyword fav hs recency
    let title := match article with
      | some a => a.title
      | none => s.tag
    let url := match article with
      | some a => a.url
      | none => ""
    let reasons : List String :=
      ["Entity focus: " ++ s.tag]
        ++ (if topic then ["Matches preferred topic"] else [])
        ++ (if entity then ["Priority entity"] else [])
        ++ (if keyword ∧ ¬topic then ["Highlight matches interest"] else [])
        ++ (if hs > 0.6 then ["Rich highlight"] else [])
        ++ (match article with
            | some a =>
              (if recency_weight a.timestamp now > 0.5 then ["Recent coverage"] else [])
                ++ (if favs ≠ [] ∧ favs.contains (pyLower a.source) then ["Favourite source"] else [])
            | none => [])
        ++ (match article with
            | some a => if a.source ≠ "" then ["Source: " ++ a.source] else []
            | none => [])
    some { article_id := aid, title := title, url := url,
           score := round3 score, reason := pyJoin ", " reasons }

/-- The candidate list of personalize_and_rank in encounter order
(personalizer.py, lines 90-166): validated summaries expand into one
candidate per article id, blocked candidates dropped. -/
noncomputable def rank_candidates (profile : ReaderProfile)
    (summaries : List TagSummary) (articles : Option (List Article))
    (now : ℝ) : List RankedStory :=
  let preferred := ensure_str_set profile.preferred_topics
  let priority := ensure_str_set profile.priority_entities
  let favs := ensure_str_set profile.favourite_sources
  let blocked := ensure_str_set profile.blocked_sources
  let arts := articles.getD []
  (summaries.filterMap validate_summary).flatMap (fun s =>
    let tag_lower := pyLower s.tag
    let category_lower := pyLower s.category
    let highlight_text := pyLower (pyJoin " " s.highlights)
    let topic := preferred.any (fun t => pyContains category_lower t)
    let entity := priority.contains tag_lower
    let keyword := preferred.any (fun t => pyContains highlight_text t)
    let hs := highlight_density s.highlights
    s.article_ids.filterMap (candidate_for blocked favs topic entity keyword hs s arts now))

/-- `personalize_and_rank` (personalizer.py, lines 72-169). The returned
pair is the single-key result dict; the sort is Python stable descending
sort on the (already rounded) stored score. -/
noncomputable def personalize_and_rank (profile : ReaderProfile)
    (summaries : List TagSummary) (articles : Option (List Article))
    (now : ℝ) : String × List RankedStory :=
  let ranked := rank_candidates profile summaries articles now
  ("ranked_stories", ranked.mergeSort (fun a b => decide (b.score ≤ a.score)))

/-! ## Ranker tool (src/tools/ranker.py) -/

/-- The candidate list of `rank_stories` (ranker.py, lines 15-48) in
encounter order: no summary validation, lowercase-only preference sets,
baseline 1.0 with only the preferred-topic bonus. -/
def rank_stories_candidates (profile : ReaderProfile)
    (summaries : List TagSummary) (articles : Option (List Article)) : List RankedStory :=
  let preferred := profile.preferred_topics.map pyLower
  let blocked := profile.blocked_sources.map pyLower
  let arts := articles.getD []
  summaries.flatMap (fun s =>
    (s.article_ids.filter (fun aid => aid ≠ "")).filterMap (fun aid =>
      let article := dictGet Article.id arts aid
      match article with
      | some a =>
        if blocked.contains (pyLower a.source) then none
        else
          let topic := preferred.any (fun t => pyContains (pyLower s.category) t)
          let score : ℚ := 1 + (if topic then 1 else 0)
          let reasons := ["Entity: " ++ s.tag]
            ++ (if topic then ["Matches preferred topic"] else [])
            ++ ["Source: " ++ a.source]
          some { article_id := aid, title := a.title, url := a.url,
                 score := score, reason := pyJoin ", " reasons }
      | none =>
        let topic := preferred.any (fun t => pyContains (pyLower s.category) t)
        let score : ℚ := 1 + (if topic then 1 else 0)
        let reasons := ["Entity: " ++ s.tag]
          ++ (if topic then ["Matches preferred topic"] else [])
        some { article_id := aid, title := s.tag, url := "",
               score := score, reason := pyJoin ", " reasons }))

/-- `rank_stories` (ranker.py, lines 8-51): the function registered as the
MCP ranking tool (server.py, line 41). Result key is "ranked_summaries". -/
def rank_stories (profile : ReaderProfile) (summaries : List TagSummary)
    (articles : Option (List Article)) : String × List RankedStory :=
  let ranked := rank_stories_candidates profile summaries articles
  ("ranked_summaries", ranked.mergeSort (fun a b => decide (b.score ≤ a.score)))

/-! ## Service boundary (src/newsroom/llm.py)

The stage wrappers guard the delegated `*_with_llm` call with
`except RuntimeError` and nothing broader, so the embedding keeps Python's
exception classes explicit: a RuntimeError is catchable at the stage,
every other exception unwinds through it no matter what flags were
passed. -/

/-- Outcome of running a Python call, as observed by a caller whose only
handler is `except RuntimeError`: a returned value, a raised RuntimeError
(catchable there), or a raised exception of any other class (not catchable
there — it unwinds through the stage). -/
inductive PyOutcome (α : Type) where
  | val : α → PyOutcome α
  | runtimeError : String → PyOutcome α
  | uncaught : String → PyOutcome α
deriving DecidableEq

/-- Outcome of one round-trip through `_call_json_response` (llm.py,
lines 112-137): `.parsed` carries the JSON payload of a completed call;
`.runtimeError` is one of the RuntimeErrors the helper itself raises
(missing client or credentials, line 120; malformed completion object,
line 132; response body that is not valid JSON, line 137); `.uncaught` is
an exception raised by the SDK call on line 122 — a timeout or connection
error — none of which is a RuntimeError. -/
inductive CallResult (α : Type) where
  | parsed : α → CallResult α
  | runtimeError : String → CallResult α
  | uncaught : String → CallResult α
deriving DecidableEq

/-- The parsed JSON payload, as far as the result extraction of the
`*_with_llm` functions inspects it. `json.loads` can yield any JSON value:
`.notObj` is a non-object (calling `.get` on it raises AttributeError);
`.missingKey` is an object without the stage's result key (`.get(key, [])`
yields the default `[]`); `.listVal items` is a list under the key, with
items of the stage-specific item type; `.nonListIterable` is a non-list
iterable under the key (a string or an object — iterating it yields
strings, never records); `.nonListNonIterable` is a non-iterable under the
key (number, boolean, null — iterating it raises TypeError). -/
inductive Payload (α : Type) where
  | notObj : Payload α
  | missingKey : Payload α
  | listVal : List α → Payload α
  | nonListIterable : Payload α
  | nonListNonIterable : Payload α
deriving DecidableEq

/-- Result extraction shared by the six record-list stages (llm.py,
lines 238-239, 260-261, 285-286, 299-300, 312-313, 324-325):
`parsed.get(KEY, [])` followed by the comprehension keeping the items with
`isinstance(record, dict)`. Items are `Option record`: `some` is a JSON
object parsed as the typed record, `none` any other item (dropped by the
filter). A missing key and a non-list iterable yield the empty list — a
success, not a failure; a non-object response raises AttributeError and a
non-iterable value raises TypeError, neither of which is a RuntimeError. -/
def extractRecords (call : CallResult (Payload (Option α))) : PyOutcome (List α) :=
  match call with
  | .runtimeError e => .runtimeError e
  | .uncaught e => .uncaught e
  | .parsed .notObj => .uncaught "AttributeError"
  | .parsed .missingKey => .val []
  | .parsed (.listVal items) => .val (items.filterMap id)
  | .parsed .nonListIterable => .val []
  | .parsed .nonListNonIterable => .uncaught "TypeError"

/-- One item of the "passages" list in the service response for passage
extraction (llm.py, lines 197-203): a JSON object (its "text" entry read
with default `""` and stringified — the embedding carries the resulting
string), a JSON string, or an item of any other type (skipped by the
loop). -/
inductive RawPassage where
  | dictItem : String → RawPassage
  | strItem : String → RawPassage
  | otherItem : RawPassage
deriving DecidableEq

/-! ## Passage extractor (src/tools/passage_extractor.py) -/

/-- Loop body of `_chunk_text` (passage_extractor.py, lines 10-32). Note
this variant appends the current chunk on overflow even when it is empty
(no `and current` in the overflow test, unlike the twin in llm.py). -/
def chunkLoop (maxLength : Nat) (current : List String) (currentLen : Nat) :
    List String → List String
  | [] => if current = [] then [] else [pyJoin " " current]
  | w :: ws =>
    let additional := w.length + (if current = [] then 0 else 1)
    if currentLen + additional > maxLength then
      pyJoin " " current :: chunkLoop maxLength [w] w.length ws
    else
      chunkLoop maxLength (current ++ [w]) (currentLen + additional) ws

/-- `_chunk_text` (passage_extractor.py, lines 10-32). -/
def chunk_text (text : String) (maxLength : Nat) : List String :=
  let words := pyWords text
  if words = [] then [] else chunkLoop maxLength [] 0 words

/-- Rule-mode body of `extract_passages` (passage_extractor.py,
lines 65-91). -/
def extract_passages_rule (article_id content : String) (max_length : Nat) :
    List Passage :=
  let paragraphs := (pySplitNewline content).filterMap
    (fun b => if pyStrip b = "" then none else some (pyStrip b))
  let chunks := paragraphs.flatMap (fun p => chunk_text p max_length)
  let passages := chunks.enum.map (fun ic =>
    ({ id := article_id ++ "-p" ++ toString (ic.1 + 1), article_id := article_id,
       order := ic.1 + 1, text := ic.2 } : Passage))
  if passages = [] ∧ pyStrip content ≠ "" then
    [{ id := article_id ++ "-p1", article_id := article_id, order := 1,
       text := pyStrip content }]
  else passages

/-- Loop body of `_chunk_text` (llm.py, lines 140-162). Unlike the twin in
passage_extractor.py, this variant also requires a non-empty current chunk
in the overflow test (`and current`). -/
def llmChunkLoop (maxLength : Nat) (current : List String) (currentLen : Nat) :
    List String → List String
  | [] => if current = [] then [] else [pyJoin " " current]
  | w :: ws =>
    let additional := w.length + (if current = [] then 0 else 1)
    if currentLen + additional > maxLength ∧ current ≠ [] then
      pyJoin " " current :: llmChunkLoop maxLength [w] w.length ws
    else
      llmChunkLoop maxLength (current ++ [w]) (currentLen + additional) ws

/-- `_chunk_text` of llm.py (lines 140-162). -/
def llm_chunk_text (text : String) (maxLength : Nat) : List String :=
  let words := pyWords text
  if words = [] then [] else llmChunkLoop maxLength [] 0 words

/-- Inner chunk loop of `extract_passages_with_llm` (llm.py,
lines 208-220): strip each chunk, skip blanks, number the survivors with
the running 1-based order counter; returns the built passages together
with the updated counter. -/
def llmChunkPassages (article_id : String) (order : Nat) :
    List String → List Passage × Nat
  | [] => ([], order)
  | chunk :: rest =>
    let cleaned := pyStrip chunk
    if cleaned = "" then llmChunkPassages article_id order rest
    else
      let pr := llmChunkPassages article_id (order + 1) rest
      ({ id := article_id ++ "-p" ++ toString (order + 1), article_id := article_id,
         order := order + 1, text := cleaned } :: pr.1, pr.2)

/-- Outer item loop of `extract_passages_with_llm` (llm.py,
lines 194-220): an object item contributes its stripped "text" string, a
string item its stripped self, any other item is skipped, as is a blank
text; each surviving text is chunked by the llm.py `_chunk_text` (falling
back to the whole text when chunking yields nothing, the `or [text]` on
line 208) and the chunks are numbered consecutively across items. -/
def llmPassagesLoop (article_id : String) (max_length : Nat) :
    List RawPassage → Nat → List Passage
  | [], _ => []
  | raw :: rest, order =>
    match (match raw with
           | RawPassage.dictItem t => some (pyStrip t)
           | RawPassage.strItem s => some (pyStrip s)
           | RawPassage.otherItem => none) with
    | none => llmPassagesLoop article_id max_length rest order
    | some text =>
      if text = "" then llmPassagesLoop article_id max_length rest order
      else
        let chunks := llm_chunk_text text max_length
        let pr := llmChunkPassages article_id order
          (if chunks = [] then [text] else chunks)
        pr.1 ++ llmPassagesLoop article_id max_length rest pr.2

/-- `extract_passages_with_llm` (llm.py, lines 165-222): blank content
returns the empty list without a service round-trip (line 171); after a
completed call, the "passages" value is checked with
`isinstance(..., list)` — any non-list value raises RuntimeError
(line 192; the one payload shape this stage itself converts to the
catchable class), a missing key defaults to the empty list and is a
successful empty result, a non-object response raises AttributeError at
`.get` (line 190, not a RuntimeError), and a list is processed item by
item. -/
def extract_passages_with_llm (article_id content : String) (max_length : Nat)
    (call : CallResult (Payload RawPassage)) : PyOutcome (List Passage) :=
  if pyStrip content = "" then .val []
  else match call with
  | .runtimeError e => .runtimeError e
  | .uncaught e => .uncaught e
  | .parsed .notObj => .uncaught "AttributeError"
  | .parsed .missingKey => .val []
  | .parsed (.listVal items) =>
      .val (llmPassagesLoop article_id max_length items 0)
  | .parsed .nonListIterable => .runtimeError "LLM returned passages in unexpected format"
  | .parsed .nonListNonIterable => .runtimeError "LLM returned passages in unexpected format"

/-- `extract_passages` (passage_extractor.py, lines 35-91): the delegated
call is guarded by `except RuntimeError` only, so a RuntimeError falls
back to the rule result (or re-raises when fallback_on_error is false)
while any other exception unwinds through the stage unconditionally. -/
def extract_passages (article_id content : String) (max_length : Nat)
    (llm_mode fallback_on_error : Bool)
    (call : CallResult (Payload RawPassage)) : PyOutcome (List Passage) :=
  if llm_mode ∧ pyStrip content ≠ "" then
    match extract_passages_with_llm article_id content max_length call with
    | .val ps => .val ps
    | .runtimeError e =>
      if fallback_on_error then .val (extract_passages_rule article_id content max_length)
      else .runtimeError e
    | .uncaught e => .uncaught e
  else .val (extract_passages_rule article_id content max_length)

/-! ## Entity extractor (src/tools/entity_extractor.py) -/

/-- The curated known-entity table (entity_extractor.py, lines 9-17),
in dict insertion order. -/
def KNOWN_ENTITIES : List (String × String) :=
  [("OpenAI", "ORG"), ("New York City", "LOCATION"), ("Metro Climate Desk", "ORG"),
   ("Brooklyn", "LOCATION"), ("Queens", "LOCATION"), ("Jamie Rivera", "PERSON"),
   ("Priya Das", "PERSON")]

/-- `_rule_based_entities` (entity_extractor.py, lines 20-35). -/
def rule_based_entities (passages : List Passage) : List EntityMention :=
  passages.flatMap (fun p =>
    KNOWN_ENTITIES.filterMap (fun et =>
      if pyContains p.text et.1 then
        some { span := et.1, type := et.2, passage_id := p.id,
               article_id := p.article_id, context := p.text }
      else none))

/-- `extract_entities_with_llm` (llm.py, lines 242-261): no empty-input
guard — the JSON service call is issued even for an empty passage list;
the result is the "entities" records of the call outcome. -/
def extract_entities_with_llm (_passages : List Passage)
    (call : CallResult (Payload (Option EntityMention))) : PyOutcome (List EntityMention) :=
  extractRecords call

/-- `extract_entities` (entity_extractor.py, lines 38-58). Note the guard
is `llm_mode` alone: there is no emptiness test before delegating. The
delegated call is guarded by `except RuntimeError` only (lines 48-55), so
any other exception unwinds through the stage unconditionally. The unused
`embeddings` flag of the source is omitted. -/
def extract_entities (passages : List Passage)
    (llm_mode fallback_on_error : Bool)
    (call : CallResult (Payload (Option EntityMention))) : PyOutcome (List EntityMention) :=
  if llm_mode then
    match extract_entities_with_llm passages call with
    | .val es => .val es
    | .runtimeError e =>
      if fallback_on_error then .val (rule_based_entities passages)
      else .runtimeError e
    | .uncaught e => .uncaught e
  else .val (rule_based_entities passages)

/-! ## Disambiguator (src/tools/disambiguator.py) -/

/-- The curated canonical-id table (disambiguator.py, lines 9-17). -/
def CANONICAL_IDS : List (String × String) :=
  [("OpenAI", "Q12345"), ("New York City", "Q60"), ("Metro Climate Desk", "Q99901"),
   ("Brooklyn", "Q18426"), ("Queens", "Q60-Queens"), ("Jamie Rivera", "Q80001"),
   ("Priya Das", "Q80002")]

/-- `_rule_based_disambiguation` (disambiguator.py, lines 20-35). The
process-dependent Python string hash is abstracted as the `pyHash`
argument; the synthetic id is `"Q" ++ abs(hash) % 10000` as in line 23. -/
def rule_based_disambiguation (pyHash : String → ℤ)
    (entities : List EntityMention) : List ResolvedEntity :=
  entities.foldl (fun acc e =>
    let canonical_id := tableGet CANONICAL_IDS e.span
      ("Q" ++ toString ((pyHash e.span).natAbs % 10000))
    let confidence : ℚ := if (CANONICAL_IDS.map Prod.fst).contains e.span then 95/100 else 1/2
    acc ++ [{ span := e.span, canonical_id := canonical_id, confidence := confidence,
              type := e.type, passage_id := e.passage_id, article_id := e.article_id }]) []

/-- `resolve_entities_with_llm` (llm.py, lines 289-300): always issues the
call; the `context` payload does not affect the control flow; the result
is the "resolved_entities" records of the call outcome. -/
def resolve_entities_with_llm (_entities : List EntityMention)
    (call : CallResult (Payload (Option ResolvedEntity))) : PyOutcome (List ResolvedEntity) :=
  extractRecords call

/-- `disambiguate_entities` (disambiguator.py, lines 38-58): the delegated
call is guarded by `except RuntimeError` only (lines 50-55), so any other
exception unwinds through the stage unconditionally. -/
def disambiguate_entities (pyHash : String → ℤ) (entities : List EntityMention)
    (llm_mode fallback_on_error : Bool)
    (call : CallResult (Payload (Option ResolvedEntity))) : PyOutcome (List ResolvedEntity) :=
  if llm_mode ∧ entities ≠ [] then
    match resolve_entities_with_llm entities call with
    | .val rs => .val rs
    | .runtimeError e =>
      if fallback_on_error then .val (rule_based_disambiguation pyHash entities)
      else .runtimeError e
    | .uncaught e => .uncaught e
  else .val (rule_based_disambiguation pyHash entities)

/-! ## Tagger (src/tools/tagger.py) -/

/-- The category table (tagger.py, lines 9-14). -/
def CATEGORY_BY_TYPE : List (String × String) :=
  [("PERSON", "beat:people"), ("ORG", "beat:institutions"),
   ("LOCATION", "beat:places"), ("OTHER", "beat:general")]

/-- Rule-mode body of `tag_entities` (tagger.py, lines 35-48). -/
def tag_entities_rule (resolved_entities : List ResolvedEntity) : List TaggedEntity :=
  resolved_entities.map (fun r =>
    { entity := r.span, canonical_id := r.canonical_id,
      category := tableGet CATEGORY_BY_TYPE r.type "beat:general",
      passage_id := r.passage_id, article_id := r.article_id })

/-- `tag_entities_with_llm` (llm.py, lines 225-239): empty input returns
the empty list without a service round-trip (line 229); otherwise the
result is the "tagged_entities" records of the call outcome. -/
def tag_entities_with_llm (resolved_entities : List ResolvedEntity)
    (call : CallResult (Payload (Option TaggedEntity))) : PyOutcome (List TaggedEntity) :=
  if resolved_entities = [] then .val [] else extractRecords call

/-- `tag_entities` (tagger.py, lines 17-48): the delegated call is guarded
by `except RuntimeError` only, so any other exception unwinds through the
stage unconditionally. -/
def tag_entities (resolved_entities : List ResolvedEntity)
    (llm_mode fallback_on_error : Bool)
    (call : CallResult (Payload (Option TaggedEntity))) : PyOutcome (List TaggedEntity) :=
  if llm_mode ∧ resolved_entities ≠ [] then
    match tag_entities_with_llm resolved_entities call with
    | .val ts => .val ts
    | .runtimeError e =>
      if fallback_on_error then .val (tag_entities_rule resolved_entities)
      else .runtimeError e
    | .uncaught e => .uncaught e
  else .val (tag_entities_rule resolved_entities)

/-! ## Topic classifier (src/tools/topic_classifier.py) -/

/-- The keyword table (topic_classifier.py, lines 9-13), in dict order. -/
def TOPIC_KEYWORDS : List (String × List String) :=
  [("Technology", ["ai", "automation", "toolkit", "openai"]),
   ("Climate", ["climate", "air quality", "sensors"]),
   ("Civic", ["community", "policymakers", "residents"])]

/-- Rule-mode body of `classify_topic` (topic_classifier.py, lines 34-52):
first keyword-matching beat wins, default General at confidence 0.5. -/
def classify_topic_rule (passages : List Passage) : List TopicPrediction :=
  passages.map (fun p =>
    let text_lower := pyLower p.text
    match TOPIC_KEYWORDS.find? (fun ck => ck.2.any (fun k => pyContains text_lower k)) with
    | some ck => { passage_id := p.id, topic := ck.1, confidence := 9/10 }
    | none => { passage_id := p.id, topic := "General", confidence := 1/2 })

/-- `classify_topics_with_llm` (llm.py, lines 264-286): always issues the
call; the result is the "topics" records of the call outcome. -/
def classify_topics_with_llm (_passages : List Passage)
    (call : CallResult (Payload (Option TopicPrediction))) : PyOutcome (List TopicPrediction) :=
  extractRecords call

/-- `classify_topic` (topic_classifier.py, lines 16-52): the delegated
call is guarded by `except RuntimeError` only, so any other exception
unwinds through the stage unconditionally. -/
def classify_topic (passages : List Passage)
    (llm_mode fallback_on_error : Bool)
    (call : CallResult (Payload (Option TopicPrediction))) : PyOutcome (List TopicPrediction) :=
  if llm_mode ∧ passages ≠ [] then
    match classify_topics_with_llm passages call with
    | .val ts => .val ts
    | .runtimeError e =>
      if fallback_on_error then .val (classify_topic_rule passages)
      else .runtimeError e
    | .uncaught e => .uncaught e
  else .val (classify_topic_rule passages)

/-! ## Tag summarizer (src/tools/tag_summarizer.py) -/

/-- `_build_highlight` (tag_summarizer.py, lines 10-25): greedy whole-word
prefix within the character budget. -/
def buildWords (limit length : Nat) (started : Bool) : List String → List String
  | [] => []
  | w :: ws =>
    let projected := length + (if started then 1 else 0) + w.length
    if projected > limit then []
    else w :: buildWords limit projected true ws

/-- `_build_highlight` (tag_summarizer.py, lines 10-25). -/
def build_highlight (text : String) (limit : Nat := 160) : String :=
  let words := pyWords text
  let highlight := buildWords limit 0 false words
  let snippet := pyJoin " " highlight
  if snippet ≠ "" ∧ snippet.length < text.length then snippet ++ "..."
  else if snippet ≠ "" then snippet else pyTake text limit

/-- Passage lookup of summarize_tags (tag_summarizer.py, line 47). -/
def passage_lookup (passages : List Passage) (pid : String) : Option Passage :=
  dictGet Passage.id passages pid

/-- In-place update of the first summary carrying a canonical id, modelling
mutation of the shared dict value (tag_summarizer.py, lines 55-70). -/
def updateSummary (acc : List TagSummary) (cid : String)
    (f : TagSummary → TagSummary) : List TagSummary :=
  match acc with
  | [] => []
  | s :: rest => if s.canonical_id = cid then f s :: rest
                 else s :: updateSummary rest cid f

/-- The accumulation applied to the group summary for one resolved member
(tag_summarizer.py, lines 66-70): append the non-empty highlight, then
append the article id when not already present. -/
def applyMember (tag : TaggedEntity) (passage : Passage) (s : TagSummary) : TagSummary :=
  let highlight := build_highlight passage.text
  let s := if highlight ≠ "" then { s with highlights := s.highlights ++ [highlight] } else s
  if tag.article_id ∈ s.article_ids then s
  else { s with article_ids := s.article_ids ++ [tag.article_id] }

/-- One iteration of the grouping loop of summarize_tags (tag_summarizer.py,
lines 50-70). -/
def summarizeStep (passages : List Passage) (acc : List TagSummary)
    (tag : TaggedEntity) : List TagSummary :=
  match passage_lookup passages tag.passage_id with
  | none => acc
  | some passage =>
    let acc' := if acc.any (fun s => s.canonical_id = tag.canonical_id) then acc
      else acc ++ [{ tag := tag.entity, canonical_id := tag.canonical_id,
                     category := tag.category, highlights := [], article_ids := [] }]
    updateSummary acc' tag.canonical_id (applyMember tag passage)

/-- Rule-mode body of `summarize_tags` (tag_summarizer.py, lines 47-72):
insertion-ordered dict of summaries keyed by canonical id, returned as its
value list. -/
def summarize_tags_rule (tags : List TaggedEntity) (passages : List Passage) :
    List TagSummary :=
  tags.foldl (summarizeStep passages) []

/-- `summarize_tags_with_llm` (llm.py, lines 303-313): always issues the
call; the passages of the prompt payload do not affect the control flow;
the result is the "tag_summaries" records of the call outcome. -/
def summarize_tags_with_llm (_tags : List TaggedEntity)
    (call : CallResult (Payload (Option TagSummary))) : PyOutcome (List TagSummary) :=
  extractRecords call

/-- `summarize_tags` (tag_summarizer.py, lines 28-72): the delegated call
is guarded by `except RuntimeError` only, so any other exception unwinds
through the stage unconditionally. -/
def summarize_tags (tags : List TaggedEntity) (passages : List Passage)
    (llm_mode fallback_on_error : Bool)
    (call : CallResult (Payload (Option TagSummary))) : PyOutcome (List TagSummary) :=
  if llm_mode ∧ tags ≠ [] then
    match summarize_tags_with_llm tags call with
    | .val ss => .val ss
    | .runtimeError e =>
      if fallback_on_error then .val (summarize_tags_rule tags passages)
      else .runtimeError e
    | .uncaught e => .uncaught e
  else .val (summarize_tags_rule tags passages)

/-! ## Fact checker (src/tools/fact_checker.py) -/

/-- The canned fact table (fact_checker.py, lines 8-27), in dict order. -/
def KNOWN_FACTS : List (String × String × List Reference) :=
  [("newsroom automation toolkit", "supported",
    [{ source := "Example Company Press Release",
       url := "https://example.com/newsroom/openai-toolkit" }]),
   ("hyperlocal climate data", "supported",
    [{ source := "Metro Climate Desk Announcement",
       url := "https://example.com/newsroom/climate-desk" }])]

/-- Rule-mode body of `fact_check` (fact_checker.py, lines 48-57): first
matching cue wins, default unverified. -/
def fact_check_rule (claims : List String) : List CheckedClaim :=
  claims.map (fun c =>
    match KNOWN_FACTS.find? (fun kv => pyContains (pyLower c) kv.1) with
    | some kv => { claim := c, status := kv.2.1, references := kv.2.2 }
    | none => { claim := c, status := "unverified", references := [] })

/-- `fact_check_with_llm` (llm.py, lines 316-325): always issues the call;
the result is the "checked_claims" records of the call outcome. -/
def fact_check_with_llm (_claims : List String)
    (call : CallResult (Payload (Option CheckedClaim))) : PyOutcome (List CheckedClaim) :=
  extractRecords call

/-- `fact_check` (fact_checker.py, lines 30-59): the delegated call is
guarded by `except RuntimeError` only, so any other exception unwinds
through the stage unconditionally. -/
def fact_check (claims : List String)
    (llm_mode fallback_on_error : Bool)
    (call : CallResult (Payload (Option CheckedClaim))) : PyOutcome (List CheckedClaim) :=
  if llm_mode ∧ claims ≠ [] then
    match fact_check_with_llm claims call with
    | .val cs => .val cs
    | .runtimeError e =>
      if fallback_on_error then .val (fact_check_rule claims)
      else .runtimeError e
    | .uncaught e => .uncaught e
  else .val (fact_check_rule claims)

/-! ## Claim-side definitions

The following definitions restate, in the words of the specification, the
quantities the claims talk about. The theorems below compare them with the
code-side definitions above. -/

/-- Claim side of C1: a candidate is excluded when its backing article's
source, compared case-insensitively, is in the profile's blocked-source
set. -/
def claimBlocked (profile : ReaderProfile) (articles : Option (List Article))
    (aid : String) : Bool :=
  match article_lookup (articles.getD []) aid with
  | some a => (ensure_str_set profile.blocked_sources).contains (pyLower a.source)
  | none => false

/-- Claim side of C1: the additive score — baseline 0.6, plus 1.0 for a
preferred-topic substring of the category, plus 1.2 for a priority-entity
tag, plus 0.5 for a keyword match without direct topic match, plus 0.8
times the capped highlight word density, plus 0.7 times exp(-age_hours/48)
when the article timestamp is available, plus 0.4 for a favourite source. -/
noncomputable def claimScore (profile : ReaderProfile) (s : TagSummary)
    (articles : Option (List Article)) (now : ℝ) (aid : String) : ℝ :=
  let preferred := ensure_str_set profile.preferred_topics
  let topicMatch := preferred.any (fun t => pyContains (pyLower s.category) t)
  let entityMatch := (ensure_str_set profile.priority_entities).contains (pyLower s.tag)
  let keywordMatch := preferred.any
    (fun t => pyContains (pyLower (pyJoin " " s.highlights)) t)
  let wc := (pyWords (pyJoin " " s.highlights)).length
  let article := article_lookup (articles.getD []) aid
  0.6 + (if topicMatch then 1 else 0) + (if entityMatch then 1.2 else 0)
    + (if keywordMatch ∧ ¬topicMatch then 0.5 else 0)
    + 0.8 * min ((wc : ℝ) / 80) 1
    + (match article with
       | some a =>
         match a.timestamp with
         | some published => 0.7 * Real.exp (-(max ((now - published) / 3600) 0) / 48)
         | none => 0
       | none => 0)
    + (if (match article with
           | some a => (ensure_str_set profile.favourite_sources).contains (pyLower a.source)
           | none => false) then 0.4 else 0)

/-- Claim side of C10: a rank_stories candidate is dropped when its id is
falsy or its backing article's lowercased source is in the lowercased
blocked-source list. -/
def claimBlockedR (profile : ReaderProfile) (articles : Option (List Article))
    (aid : String) : Bool :=
  match dictGet Article.id (articles.getD []) aid with
  | some a => (profile.blocked_sources.map pyLower).contains (pyLower a.source)
  | none => false

/-- Claim side of C10: the rank_stories score — baseline 1.0 plus 1.0 for a
preferred-topic substring of the category. -/
def claimScoreR (profile : ReaderProfile) (s : TagSummary) : ℚ :=
  if (profile.preferred_topics.map pyLower).any
      (fun t => pyContains (pyLower s.category) t) then 2 else 1

/-- First-occurrence deduplication, preserving encounter order: the shape of
the claim phrases "in first-seen order" and "no duplicates, insertion
order". -/
def firstDedup (l : List String) : List String :=
  l.foldl (fun acc x => if x ∈ acc then acc else acc ++ [x]) []

/-- The tagged entities that survive passage resolution, paired with their
passage (claim side of C4: members whose passage id is absent are
skipped). -/
def resolvedPairs (tags : List TaggedEntity) (passages : List Passage) :
    List (TaggedEntity × Passage) :=
  tags.filterMap (fun t => (passage_lookup passages t.passage_id).map (fun p => (t, p)))

/-- The members of one canonical-id group, in encounter order. -/
def groupMembers (pairs : List (TaggedEntity × Passage)) (cid : String) :
    List (TaggedEntity × Passage) :=
  pairs.filter (fun tp => tp.1.canonical_id = cid)

/-- Claim side of C4: the summary of one canonical-id group — tag and
category seeded by the first member, highlights in encounter order (empty
builds dropped), article ids first-occurrence deduplicated. -/
def mkSummary (pairs : List (TaggedEntity × Passage)) (cid : String) : TagSummary :=
  let members := groupMembers pairs cid
  { tag := (members.head?.map (fun tp => tp.1.entity)).getD "",
    canonical_id := cid,
    category := (members.head?.map (fun tp => tp.1.category)).getD "",
    highlights := members.filterMap (fun tp =>
      let h := build_highlight tp.2.text
      if h = "" then none else some h),
    article_ids := firstDedup (members.map (fun tp => tp.1.article_id)) }

/-- Claim side of C4: one summary per distinct canonical id of the resolved
members, in first-seen order. -/
def specGroup (pairs : List (TaggedEntity × Passage)) : List TagSummary :=
  (firstDedup (pairs.map (fun tp => tp.1.canonical_id))).map (mkSummary pairs)

/-- Claim side of C7: the expected resolution of a single mention — the
curated id at confidence 0.95 for spans in the table, otherwise the
hash-derived synthetic id at confidence 0.5. -/
def claimResolve (pyHash : String → ℤ) (e : EntityMention) : ResolvedEntity :=
  { span := e.span,
    canonical_id :=
      match CANONICAL_IDS.find? (fun kv => kv.1 = e.span) with
      | some kv => kv.2
      | none => "Q" ++ toString ((pyHash e.span).natAbs % 10000),
    confidence := if (CANONICAL_IDS.map Prod.fst).contains e.span then 95/100 else 1/2,
    type := e.type, passage_id := e.passage_id, article_id := e.article_id }

/-! ## Helper lemmas -/

lemma pyLower_eq_empty_iff (s : String) : pyLower s = "" ↔ s = "" := by
  constructor
  · intro h
    have h2 := congrArg String.data h
    simp only [pyLower] at h2
    exact String.ext (by simpa using h2)
  · intro h
    subst h
    rfl

lemma mem_ensure_str_set_ne_empty {l : List String} {x : String}
    (hx : x ∈ ensure_str_set l) : x ≠ "" := by
  simp only [ensure_str_set, List.mem_filterMap] at hx
  obtain ⟨v, -, hv⟩ := hx
  by_cases hb : pyStrip v = "" <;> simp [hb] at hv
  intro hx0
  rw [← hv] at hx0
  exact hb ((pyLower_eq_empty_iff (pyStrip v)).mp hx0)

lemma ensure_contains_empty_false (l : List String) :
    (ensure_str_set l).contains "" = false := by
  by_contra h
  rw [Bool.not_eq_false, List.contains_eq_any_beq, List.any_eq_true] at h
  obtain ⟨x, hx, hbeq⟩ := h
  exact mem_ensure_str_set_ne_empty hx (beq_iff_eq.mp hbeq).symm

lemma foldl_append_singleton_eq_map (f : α → β) :
    ∀ (l : List α) (acc : List β),
      l.foldl (fun acc e => acc ++ [f e]) acc = acc ++ l.map f
  | [], acc => by simp
  | x :: xs, acc => by
    simp only [List.foldl_cons, List.map_cons]
    rw [foldl_append_singleton_eq_map f xs (acc ++ [f x])]
    simp

/-! ## C7: rule-mode entity resolution -/

/-- C7: rule-mode entity resolution returns exactly one resolved entity per
input mention, in order; a span in the curated table receives the table id
at confidence 0.95, any other span the hash-derived synthetic id at
confidence 0.5. -/
theorem C7_resolver_rule_one_to_one (pyHash : String → ℤ)
    (entities : List EntityMention) :
    rule_based_disambiguation pyHash entities = entities.map (claimResolve pyHash)
      ∧ (rule_based_disambiguation pyHash entities).length = entities.length := by
  have hmap : rule_based_disambiguation pyHash entities
      = entities.map (claimResolve pyHash) := by
    unfold rule_based_disambiguation
    rw [foldl_append_singleton_eq_map]
    simp only [List.nil_append]
    apply List.map_congr_left
    intro e _
    simp only [claimResolve, tableGet]
  exact ⟨hmap, by rw [hmap, List.length_map]⟩

/-! ## C2: service-failure fallback contract -/

/-- Refutation of C2 as stated: a timeout of the SDK call is not a
RuntimeError, so in service mode with fallback enabled (the default) the
disambiguation stage does not return the rule-mode result — the exception
propagates out of the stage. -/
theorem C2_counterexample :
    disambiguate_entities (fun _ => 0) [⟨"s", "ORG", "p1", "a1", "c"⟩] true true
        (.uncaught "APITimeoutError")
      = .uncaught "APITimeoutError"
    ∧ PyOutcome.uncaught "APITimeoutError"
      ≠ PyOutcome.val (rule_based_disambiguation (fun _ => 0)
          [⟨"s", "ORG", "p1", "a1", "c"⟩]) := by
  exact ⟨rfl, by simp⟩

/-- C2 amended: each service-mode stage catches only RuntimeError around
the delegated call. A failure surfaced as RuntimeError (missing
credentials, malformed completion object, non-JSON response body, and —
for passage extraction alone — a non-list "passages" value) falls back to
the rule-mode result when fallback_on_error is true and propagates when it
is false. Any other exception propagates regardless of the flag: SDK
timeouts and connection errors, the TypeError of a non-list non-iterable
result value in the six record-list stages, the AttributeError of a
non-object response. A missing result key is a successful empty result,
not a failure. -/
theorem C2_fallback_by_exception_class
    (aid content : String) (maxLength : Nat) (passages ps2 : List Passage)
    (mentions : List EntityMention) (resolved : List ResolvedEntity)
    (tags : List TaggedEntity) (claims : List String)
    (pyHash : String → ℤ) (e : String) (fb : Bool)
    (hcontent : pyStrip content ≠ "") (hm : mentions ≠ []) (hr : resolved ≠ [])
    (hp : passages ≠ []) (ht : tags ≠ []) (hc : claims ≠ []) :
    (extract_passages aid content maxLength true true (.runtimeError e)
        = .val (extract_passages_rule aid content maxLength)
      ∧ extract_passages aid content maxLength true false (.runtimeError e) = .runtimeError e
      ∧ extract_passages aid content maxLength true fb (.uncaught e) = .uncaught e
      ∧ extract_passages aid content maxLength true fb (.parsed .missingKey) = .val []
      ∧ extract_passages aid content maxLength true true (.parsed .nonListNonIterable)
          = .val (extract_passages_rule aid content maxLength)
      ∧ extract_passages aid content maxLength true false (.parsed .nonListNonIterable)
          = .runtimeError "LLM returned passages in unexpected format"
      ∧ extract_passages aid content maxLength true fb (.parsed .notObj)
          = .uncaught "AttributeError")
    ∧ (extract_entities passages true true (.runtimeError e)
          = .val (rule_based_entities passages)
      ∧ extract_entities passages true false (.runtimeError e) = .runtimeError e
      ∧ extract_entities passages true fb (.uncaught e) = .uncaught e
      ∧ extract_entities passages true fb (.parsed .missingKey) = .val []
      ∧ extract_entities passages true fb (.parsed .nonListNonIterable)
          = .uncaught "TypeError"
      ∧ extract_entities passages true fb (.parsed .notObj) = .uncaught "AttributeError")
    ∧ (disambiguate_entities pyHash mentions true true (.runtimeError e)
          = .val (rule_based_disambiguation pyHash mentions)
      ∧ disambiguate_entities pyHash mentions true false (.runtimeError e) = .runtimeError e
      ∧ disambiguate_entities pyHash mentions true fb (.uncaught e) = .uncaught e
      ∧ disambiguate_entities pyHash mentions true fb (.parsed .missingKey) = .val []
      ∧ disambiguate_entities pyHash mentions true fb (.parsed .nonListNonIterable)
          = .uncaught "TypeError"
      ∧ disambiguate_entities pyHash mentions true fb (.parsed .notObj)
          = .uncaught "AttributeError")
    ∧ (tag_entities resolved true true (.runtimeError e) = .val (tag_entities_rule resolved)
      ∧ tag_entities resolved true false (.runtimeError e) = .runtimeError e
      ∧ tag_entities resolved true fb (.uncaught e) = .uncaught e
      ∧ tag_entities resolved true fb (.parsed .missingKey) = .val []
      ∧ tag_entities resolved true fb (.parsed .nonListNonIterable) = .uncaught "TypeError"
      ∧ tag_entities resolved true fb (.parsed .notObj) = .uncaught "AttributeError")
    ∧ (classify_topic passages true true (.runtimeError e)
          = .val (classify_topic_rule passages)
      ∧ classify_topic passages true false (.runtimeError e) = .runtimeError e
      ∧ classify_topic passages true fb (.uncaught e) = .uncaught e
      ∧ classify_topic passages true fb (.parsed .missingKey) = .val []
      ∧ classify_topic passages true fb (.parsed .nonListNonIterable) = .uncaught "TypeError"
      ∧ classify_topic passages true fb (.parsed .notObj) = .uncaught "AttributeError")
    ∧ (summarize_tags tags ps2 true true (.runtimeError e)
          = .val (summarize_tags_rule tags ps2)
      ∧ summarize_tags tags ps2 true false (.runtimeError e) = .runtimeError e
      ∧ summarize_tags tags ps2 true fb (.uncaught e) = .uncaught e
      ∧ summarize_tags tags ps2 true fb (.parsed .missingKey) = .val []
      ∧ summarize_tags tags ps2 true fb (.parsed .nonListNonIterable) = .uncaught "TypeError"
      ∧ summarize_tags tags ps2 true fb (.parsed .notObj) = .uncaught "AttributeError")
    ∧ (fact_check claims true true (.runtimeError e) = .val (fact_check_rule claims)
      ∧ fact_check claims true false (.runtimeError e) = .runtimeError e
      ∧ fact_check claims true fb (.uncaught e) = .uncaught e
      ∧ fact_check claims true fb (.parsed .missingKey) = .val []
      ∧ fact_check claims true fb (.parsed .nonListNonIterable) = .uncaught "TypeError"
      ∧ fact_check claims true fb (.parsed .notObj) = .uncaught "AttributeError") := by
  refine ⟨⟨?_, ?_, ?_, ?_, ?_, ?_, ?_⟩, ⟨?_, ?_, ?_, ?_, ?_, ?_⟩,
    ⟨?_, ?_, ?_, ?_, ?_, ?_⟩, ⟨?_, ?_, ?_, ?_, ?_, ?_⟩, ⟨?_, ?_, ?_, ?_, ?_, ?_⟩,
    ⟨?_, ?_, ?_, ?_, ?_, ?_⟩, ⟨?_, ?_, ?_, ?_, ?_, ?_⟩⟩ <;>
    simp [extract_passages, extract_passages_with_llm,
      extract_entities, extract_entities_with_llm,
      disambiguate_entities, resolve_entities_with_llm,
      tag_entities, tag_entities_with_llm,
      classify_topic, classify_topics_with_llm,
      summarize_tags, summarize_tags_with_llm,
      fact_check, fact_check_with_llm, extractRecords,
      hcontent, hm, hr, hp, ht, hc]

/-- Witness for the amended C2 at concrete non-empty inputs. -/
theorem C2_fallback_by_exception_class_witness :
    (pyStrip "x" ≠ "") ∧ ([(⟨"p1", "a1", 1, "t"⟩ : Passage)] ≠ [])
    ∧ ((extract_passages "a1" "x" 320 true true (.runtimeError "boom")
        = .val (extract_passages_rule "a1" "x" 320)
      ∧ extract_passages "a1" "x" 320 true false (.runtimeError "boom")
          = .runtimeError "boom"
      ∧ extract_passages "a1" "x" 320 true false (.uncaught "boom") = .uncaught "boom"
      ∧ extract_passages "a1" "x" 320 true false (.parsed .missingKey) = .val []
      ∧ extract_passages "a1" "x" 320 true true (.parsed .nonListNonIterable)
          = .val (extract_passages_rule "a1" "x" 320)
      ∧ extract_passages "a1" "x" 320 true false (.parsed .nonListNonIterable)
          = .runtimeError "LLM returned passages in unexpected format"
      ∧ extract_passages "a1" "x" 320 true false (.parsed .notObj)
          = .uncaught "AttributeError")
    ∧ (extract_entities [⟨"p1", "a1", 1, "t"⟩] true true (.runtimeError "boom")
        = .val (rule_based_entities [⟨"p1", "a1", 1, "t"⟩])
      ∧ extract_entities [⟨"p1", "a1", 1, "t"⟩] true false (.runtimeError "boom")
          = .runtimeError "boom"
      ∧ extract_entities [⟨"p1", "a1", 1, "t"⟩] true false (.uncaught "boom")
          = .uncaught "boom"
      ∧ extract_entities [⟨"p1", "a1", 1, "t"⟩] true false (.parsed .missingKey) = .val []
      ∧ extract_entities [⟨"p1", "a1", 1, "t"⟩] true false (.parsed .nonListNonIterable)
          = .uncaught "TypeError"
      ∧ extract_entities [⟨"p1", "a1", 1, "t"⟩] true false (.parsed .notObj)
          = .uncaught "AttributeError")
    ∧ (disambiguate_entities (fun _ => 0) [⟨"s", "ORG", "p1", "a1", "c"⟩] true true
          (.runtimeError "boom")
        = .val (rule_based_disambiguation (fun _ => 0) [⟨"s", "ORG", "p1", "a1", "c"⟩])
      ∧ disambiguate_entities (fun _ => 0) [⟨"s", "ORG", "p1", "a1", "c"⟩] true false
          (.runtimeError "boom") = .runtimeError "boom"
      ∧ disambiguate_entities (fun _ => 0) [⟨"s", "ORG", "p1", "a1", "c"⟩] true false
          (.uncaught "boom") = .uncaught "boom"
      ∧ disambiguate_entities (fun _ => 0) [⟨"s", "ORG", "p1", "a1", "c"⟩] true false
          (.parsed .missingKey) = .val []
      ∧ disambiguate_entities (fun _ => 0) [⟨"s", "ORG", "p1", "a1", "c"⟩] true false
          (.parsed .nonListNonIterable) = .uncaught "TypeError"
      ∧ disambiguate_entities (fun _ => 0) [⟨"s", "ORG", "p1", "a1", "c"⟩] true false
          (.parsed .notObj) = .uncaught "AttributeError")
    ∧ (tag_entities [⟨"s", "q", 1/2, "ORG", "p1", "a1"⟩] true true (.runtimeError "boom")
        = .val (tag_entities_rule [⟨"s", "q", 1/2, "ORG", "p1", "a1"⟩])
      ∧ tag_entities [⟨"s", "q", 1/2, "ORG", "p1", "a1"⟩] true false (.runtimeError "boom")
          = .runtimeError "boom"
      ∧ tag_entities [⟨"s", "q", 1/2, "ORG", "p1", "a1"⟩] true false (.uncaught "boom")
          = .uncaught "boom"
      ∧ tag_entities [⟨"s", "q", 1/2, "ORG", "p1", "a1"⟩] true false (.parsed .missingKey)
          = .val []
      ∧ tag_entities [⟨"s", "q", 1/2, "ORG", "p1", "a1"⟩] true false
          (.parsed .nonListNonIterable) = .uncaught "TypeError"
      ∧ tag_entities [⟨"s", "q", 1/2, "ORG", "p1", "a1"⟩] true false (.parsed .notObj)
          = .uncaught "AttributeError")
    ∧ (classify_topic [⟨"p1", "a1", 1, "t"⟩] true true (.runtimeError "boom")
        = .val (classify_topic_rule [⟨"p1", "a1", 1, "t"⟩])
      ∧ classify_topic [⟨"p1", "a1", 1, "t"⟩] true false (.runtimeError "boom")
          = .runtimeError "boom"
      ∧ classify_topic [⟨"p1", "a1", 1, "t"⟩] true false (.uncaught "boom")
          = .uncaught "boom"
      ∧ classify_topic [⟨"p1", "a1", 1, "t"⟩] true false (.parsed .missingKey) = .val []
      ∧ classify_topic [⟨"p1", "a1", 1, "t"⟩] true false (.parsed .nonListNonIterable)
          = .uncaught "TypeError"
      ∧ classify_topic [⟨"p1", "a1", 1, "t"⟩] true false (.parsed .notObj)
          = .uncaught "AttributeError")
    ∧ (summarize_tags [⟨"s", "q", "c", "p1", "a1"⟩] [] true true (.runtimeError "boom")
        = .val (summarize_tags_rule [⟨"s", "q", "c", "p1", "a1"⟩] [])
      ∧ summarize_tags [⟨"s", "q", "c", "p1", "a1"⟩] [] true false (.runtimeError "boom")
          = .runtimeError "boom"
      ∧ summarize_tags [⟨"s", "q", "c", "p1", "a1"⟩] [] true false (.uncaught "boom")
          = .uncaught "boom"
      ∧ summarize_tags [⟨"s", "q", "c", "p1", "a1"⟩] [] true false (.parsed .missingKey)
          = .val []
      ∧ summarize_tags [⟨"s", "q", "c", "p1", "a1"⟩] [] true false
          (.parsed .nonListNonIterable) = .uncaught "TypeError"
      ∧ summarize_tags [⟨"s", "q", "c", "p1", "a1"⟩] [] true false (.parsed .notObj)
          = .uncaught "AttributeError")
    ∧ (fact_check ["claim"] true true (.runtimeError "boom")
        = .val (fact_check_rule ["claim"])
      ∧ fact_check ["claim"] true false (.runtimeError "boom") = .runtimeError "boom"
      ∧ fact_check ["claim"] true false (.uncaught "boom") = .uncaught "boom"
      ∧ fact_check ["claim"] true false (.parsed .missingKey) = .val []
      ∧ fact_check ["claim"] true false (.parsed .nonListNonIterable) = .uncaught "TypeError"
      ∧ fact_check ["claim"] true false (.parsed .notObj) = .uncaught "AttributeError")) :=
  ⟨by decide, by decide,
    C2_fallback_by_exception_class "a1" "x" 320 [⟨"p1", "a1", 1, "t"⟩] []
      [⟨"s", "ORG", "p1", "a1", "c"⟩] [⟨"s", "q", 1/2, "ORG", "p1", "a1"⟩]
      [⟨"s", "q", "c", "p1", "a1"⟩] ["claim"] (fun _ => 0) "boom" false
      (by decide) (by decide) (by decide) (by decide) (by decide) (by decide)⟩

/-! ## C3: empty input in service mode -/

/-- Refutation of C3 as stated: entity extraction in service mode with an
empty passage list still issues the service call — the result is whatever
the service returns, not the rule-mode result for the empty input. -/
theorem C3_counterexample :
    extract_entities [] true true
        (.parsed (.listVal [some ⟨"X", "ORG", "p1", "a1", "ctx"⟩]))
      ≠ .val (rule_based_entities []) := by
  simp [extract_entities, extract_entities_with_llm, extractRecords,
    rule_based_entities]

/-- C3 amended: with the exception of entity extraction, every service-mode
stage short-circuits on empty input to the rule-mode result, regardless of
the service outcome and of the fallback flag. -/
theorem C3_empty_input_short_circuit
    (aid content : String) (maxLength : Nat) (ps2 : List Passage)
    (pyHash : String → ℤ) (fb : Bool)
    (sv1 : CallResult (Payload RawPassage))
    (sv2 : CallResult (Payload (Option ResolvedEntity)))
    (sv3 : CallResult (Payload (Option TaggedEntity)))
    (sv4 : CallResult (Payload (Option TopicPrediction)))
    (sv5 : CallResult (Payload (Option TagSummary)))
    (sv6 : CallResult (Payload (Option CheckedClaim)))
    (hcontent : pyStrip content = "") :
    extract_passages aid content maxLength true fb sv1
        = .val (extract_passages_rule aid content maxLength)
    ∧ disambiguate_entities pyHash [] true fb sv2
        = .val (rule_based_disambiguation pyHash [])
    ∧ tag_entities [] true fb sv3 = .val (tag_entities_rule [])
    ∧ classify_topic [] true fb sv4 = .val (classify_topic_rule [])
    ∧ summarize_tags [] ps2 true fb sv5 = .val (summarize_tags_rule [] ps2)
    ∧ fact_check [] true fb sv6 = .val (fact_check_rule []) := by
  refine ⟨?_, ?_, ?_, ?_, ?_, ?_⟩ <;>
    simp [extract_passages, disambiguate_entities, tag_entities, classify_topic,
      summarize_tags, fact_check, hcontent]

/-- Witness for the amended C3 at a blank content and concrete service
outcomes. -/
theorem C3_empty_input_short_circuit_witness :
    (pyStrip " " = "")
    ∧ (extract_passages "a1" " " 320 true false (.parsed (.listVal [.strItem "t"]))
        = .val (extract_passages_rule "a1" " " 320)
    ∧ disambiguate_entities (fun _ => 0) [] true false (.uncaught "x")
        = .val (rule_based_disambiguation (fun _ => 0) [])
    ∧ tag_entities [] true false (.uncaught "x") = .val (tag_entities_rule [])
    ∧ classify_topic [] true false (.uncaught "x") = .val (classify_topic_rule [])
    ∧ summarize_tags [] [] true false (.uncaught "x") = .val (summarize_tags_rule [] [])
    ∧ fact_check [] true false (.uncaught "x") = .val (fact_check_rule [])) :=
  ⟨by decide,
    C3_empty_input_short_circuit "a1" " " 320 [] (fun _ => 0) false
      (.parsed (.listVal [.strItem "t"])) (.uncaught "x") (.uncaught "x")
      (.uncaught "x") (.uncaught "x") (.uncaught "x") (by decide)⟩

/-! ## C1: exclusion and additive scoring of personalize_and_rank -/

lemma contains_true_ne_nil {α} [BEq α] {l : List α} {x : α}
    (h : l.contains x = true) : l ≠ [] := by
  cases l <;> simp_all

lemma map_filterMap_eq_filter_map (f : α → Option β) (proj : β → γ)
    (p : α → Bool) (g : α → γ) :
    ∀ l : List α, (∀ a ∈ l, (f a).map proj = if p a then some (g a) else none) →
      (l.filterMap f).map proj = (l.filter p).map g
  | [], _ => rfl
  | a :: l, H => by
    have ha := H a (List.mem_cons_self a l)
    have hl := map_filterMap_eq_filter_map f proj p g l
      (fun b hb => H b (List.mem_cons_of_mem a hb))
    by_cases hp : p a = true
    · rw [hp, if_pos rfl] at ha
      rcases hfa : f a with _ | b
      · rw [hfa] at ha
        simp at ha
      · rw [hfa] at ha
        simp only [Option.map_some'] at ha
        simp [List.filterMap_cons, hfa, List.filter_cons, hp, hl, Option.some.inj ha]
    · rw [Bool.not_eq_true] at hp
      rw [hp] at ha
      simp only [if_neg Bool.false_ne_true] at ha
      have hfa : f a = none := by
        rcases hfa : f a with _ | b
        · rfl
        · rw [hfa] at ha
          simp at ha
      simp [List.filterMap_cons, hfa, List.filter_cons, hp, hl]

lemma highlight_density_eq (hl : List String) :
    highlight_density hl = min (((pyWords (pyJoin " " hl)).length : ℝ) / 80) 1 := by
  unfold highlight_density
  by_cases h : pyWords (pyJoin " " hl) = []
  · simp [h]
  · simp [h]

/-- The candidate list of the scoring loop, projected to article id and
stored score, equals the claim-side expression: validated summaries expand
to their non-blocked article ids, each scored by the rounded additive
formula. -/
lemma rank_candidates_proj (profile : ReaderProfile)
    (summaries : List TagSummary) (articles : Option (List Article)) (now : ℝ) :
    (rank_candidates profile summaries articles now).map (fun r => (r.article_id, r.score))
      = (summaries.filterMap validate_summary).flatMap (fun s =>
          (s.article_ids.filter (fun aid => !(claimBlocked profile articles aid))).map
            (fun aid => (aid, round3 (claimScore profile s articles now aid)))) := by
  unfold rank_candidates
  rw [List.map_flatMap]
  apply List.flatMap_congr
  intro s _
  apply map_filterMap_eq_filter_map
  intro aid _
  have hb : (ensure_str_set profile.blocked_sources).contains "" = false :=
    ensure_contains_empty_false _
  rcases hart : article_lookup (articles.getD []) aid with _ | a
  · simp only [candidate_for, claimBlocked, claimScore, hart]
    rw [if_neg (show ¬(("" : String) ≠ "" ∧
        (ensure_str_set profile.blocked_sources).contains "" = true) from fun h => h.1 rfl)]
    rw [if_pos (show (!false) = true from rfl)]
    rw [Option.map_some']
    refine congrArg some (congrArg (Prod.mk aid) (congrArg round3 ?_))
    simp only [scoreParts, highlight_density_eq]
    ring
  · simp only [candidate_for, claimBlocked, claimScore, hart]
    by_cases hblk : pyLower a.source ∈ ensure_str_set profile.blocked_sources
    · have hbtrue : (ensure_str_set profile.blocked_sources).contains (pyLower a.source) = true :=
        List.elem_eq_true_of_mem hblk
      have hne : pyLower a.source ≠ "" := mem_ensure_str_set_ne_empty hblk
      rw [if_pos ⟨hne, hbtrue⟩]
      rw [if_neg (show ¬((!(ensure_str_set profile.blocked_sources).contains
          (pyLower a.source)) = true) from by rw [hbtrue]; exact Bool.false_ne_true)]
      rfl
    · have hbfalse : (ensure_str_set profile.blocked_sources).contains (pyLower a.source)
          = false := by
        cases hx : (ensure_str_set profile.blocked_sources).contains (pyLower a.source)
        · rfl
        · exact absurd (List.mem_of_elem_eq_true hx) hblk
      rw [if_neg (show ¬(pyLower a.source ≠ "" ∧
          (ensure_str_set profile.blocked_sources).contains (pyLower a.source) = true) from
          fun h => Bool.false_ne_true (hbfalse ▸ h.2))]
      rw [if_pos (show (!(ensure_str_set profile.blocked_sources).contains
          (pyLower a.source)) = true from by rw [hbfalse]; rfl)]
      rw [Option.map_some']
      refine congrArg some (congrArg (Prod.mk aid) (congrArg round3 ?_))
      have hfav : ((ensure_str_set profile.favourite_sources ≠ [] ∧
            (ensure_str_set profile.favourite_sources).contains (pyLower a.source) = true))
          ↔ (ensure_str_set profile.favourite_sources).contains (pyLower a.source) = true :=
        ⟨fun h => h.2, fun h => ⟨contains_true_ne_nil h, h⟩⟩
      simp only [scoreParts, highlight_density_eq, decide_eq_true_eq]
      rw [if_congr hfav rfl rfl]
      rcases a.timestamp with _ | ts <;> (simp only [recency_weight]; try ring)

/-- C1: personalize_and_rank drops, before scoring, every candidate whose
backing article's source (case-insensitively) is in the blocked-source set,
and assigns each emitted candidate the additive score: 0.6 baseline, +1.0
topic match, +1.2 priority entity, +0.5 keyword match without topic match,
+0.8 times the capped highlight density, +0.7 times exp(-age_hours/48) when
the timestamp is available (0 otherwise), +0.4 favourite source — stored
rounded to three decimals. -/
theorem C1_exclusion_and_scoring (profile : ReaderProfile)
    (summaries : List TagSummary) (articles : Option (List Article)) (now : ℝ) :
    (rank_candidates profile summaries articles now).map (fun r => (r.article_id, r.score))
      = (summaries.filterMap validate_summary).flatMap (fun s =>
          (s.article_ids.filter (fun aid => !(claimBlocked profile articles aid))).map
            (fun aid => (aid, round3 (claimScore profile s articles now aid)))) :=
  rank_candidates_proj profile summaries articles now

/-! ## C5: descending stable sort of the ranking output -/

lemma rankLE_trans (a b c : RankedStory)
    (hab : (fun a b : RankedStory => decide (b.score ≤ a.score)) a b = true)
    (hbc : (fun a b : RankedStory => decide (b.score ≤ a.score)) b c = true) :
    (fun a b : RankedStory => decide (b.score ≤ a.score)) a c = true := by
  simp only [decide_eq_true_eq] at *
  exact le_trans hbc hab

lemma rankLE_total (a b : RankedStory) :
    ((fun a b : RankedStory => decide (b.score ≤ a.score)) a b
      || (fun a b : RankedStory => decide (b.score ≤ a.score)) b a) = true := by
  rcases le_total a.score b.score with h | h <;> simp [h]

/-- C5: the ranking output is sorted by descending stored (rounded) score,
and is stable — for every score value, the candidates carrying that score
appear in exactly their encounter order from the scoring loop. -/
theorem C5_sorted_descending_stable (profile : ReaderProfile)
    (summaries : List TagSummary) (articles : Option (List Article)) (now : ℝ) :
    ((personalize_and_rank profile summaries articles now).2).Pairwise
        (fun a b => b.score ≤ a.score)
    ∧ ∀ q : ℚ, ((personalize_and_rank profile summaries articles now).2).filter
          (fun r => r.score == q)
        = (rank_candidates profile summaries articles now).filter
          (fun r => r.score == q) := by
  simp only [personalize_and_rank]
  constructor
  · have h := List.sorted_mergeSort rankLE_trans rankLE_total
      (rank_candidates profile summaries articles now)
    exact h.imp (fun hab => by simpa using hab)
  · intro q
    have hpw : ((rank_candidates profile summaries articles now).filter
        (fun r => r.score == q)).Pairwise
        (fun a b : RankedStory => (fun a b : RankedStory => decide (b.score ≤ a.score)) a b = true) := by
      apply List.pairwise_of_forall_mem_list
      intro a ha b hb
      rw [List.mem_filter] at ha hb
      have ha2 : a.score = q := beq_iff_eq.mp ha.2
      have hb2 : b.score = q := beq_iff_eq.mp hb.2
      simp [ha2, hb2]
    have hsub : ((rank_candidates profile summaries articles now).filter
          (fun r => r.score == q)).Sublist
        ((rank_candidates profile summaries articles now).mergeSort
          (fun a b : RankedStory => decide (b.score ≤ a.score))) :=
      List.sublist_mergeSort rankLE_trans rankLE_total hpw (List.filter_sublist _)
    have hsub2 : ((rank_candidates profile summaries articles now).filter
          (fun r => r.score == q)).Sublist
        (((rank_candidates profile summaries articles now).mergeSort
          (fun a b : RankedStory => decide (b.score ≤ a.score))).filter
          (fun r => r.score == q)) := by
      have h2 := hsub.filter (fun r => r.score == q)
      rwa [List.filter_filter, List.filter_congr (fun a _ => Bool.and_self _)] at h2
    have hperm : (((rank_candidates profile summaries articles now).mergeSort
          (fun a b : RankedStory => decide (b.score ≤ a.score))).filter
          (fun r => r.score == q)).Perm
        ((rank_candidates profile summaries articles now).filter (fun r => r.score == q)) :=
      (List.mergeSort_perm _ _).filter _
    exact (hsub2.eq_of_length hperm.length_eq.symm).symm

/-! ## C4: grouping behaviour of the rule-mode summarizer -/

lemma firstDedup_append (l : List String) (a : String) :
    firstDedup (l ++ [a])
      = if a ∈ firstDedup l then firstDedup l else firstDedup l ++ [a] := by
  simp [firstDedup, List.foldl_append]

lemma mem_foldl_dedup (l : List String) :
    ∀ (acc : List String) (x : String),
      (x ∈ l.foldl (fun acc y => if y ∈ acc then acc else acc ++ [y]) acc)
        ↔ x ∈ acc ∨ x ∈ l := by
  induction l with
  | nil => intro acc x; simp
  | cons y ys ih =>
    intro acc x
    simp only [List.foldl_cons]
    rw [ih]
    by_cases hy : y ∈ acc
    · rw [if_pos hy]
      simp only [List.mem_cons]
      constructor
      · rintro (h | h)
        · exact Or.inl h
        · exact Or.inr (Or.inr h)
      · rintro (h | rfl | h)
        · exact Or.inl h
        · exact Or.inl hy
        · exact Or.inr h
    · rw [if_neg hy]
      simp only [List.mem_append, List.mem_singleton, List.mem_cons]
      tauto

lemma mem_firstDedup {l : List String} {x : String} :
    x ∈ firstDedup l ↔ x ∈ l := by
  rw [firstDedup, mem_foldl_dedup]
  simp

lemma foldl_dedup_nodup (l : List String) :
    ∀ acc : List String, acc.Nodup →
      (l.foldl (fun acc y => if y ∈ acc then acc else acc ++ [y]) acc).Nodup := by
  induction l with
  | nil => intro acc h; simpa using h
  | cons y ys ih =>
    intro acc h
    simp only [List.foldl_cons]
    by_cases hy : y ∈ acc
    · rw [if_pos hy]
      exact ih acc h
    · rw [if_neg hy]
      refine ih _ (List.Nodup.append h (List.nodup_singleton y) ?_)
      intro a ha hay
      rw [List.mem_singleton] at hay
      subst hay
      exact hy ha

lemma firstDedup_nodup (l : List String) : (firstDedup l).Nodup :=
  foldl_dedup_nodup l [] List.nodup_nil

lemma specGroup_map_canonical (pairs : List (TaggedEntity × Passage)) :
    (specGroup pairs).map (fun s => s.canonical_id)
      = firstDedup (pairs.map (fun tp => tp.1.canonical_id)) := by
  unfold specGroup
  rw [List.map_map]
  have h : ∀ c ∈ firstDedup (pairs.map (fun tp => tp.1.canonical_id)),
      ((fun s => s.canonical_id) ∘ mkSummary pairs) c = c := fun c _ => rfl
  rw [List.map_congr_left h]
  exact List.map_id _

lemma groupMembers_append_match (ps : List (TaggedEntity × Passage))
    (x : TaggedEntity × Passage) (cid : String) (hx : x.1.canonical_id = cid) :
    groupMembers (ps ++ [x]) cid = groupMembers ps cid ++ [x] := by
  unfold groupMembers
  rw [List.filter_append]
  simp [hx]

lemma groupMembers_append_other (ps : List (TaggedEntity × Passage))
    (x : TaggedEntity × Passage) (cid : String) (hx : x.1.canonical_id ≠ cid) :
    groupMembers (ps ++ [x]) cid = groupMembers ps cid := by
  unfold groupMembers
  rw [List.filter_append]
  simp [hx]

lemma mkSummary_append_other (ps : List (TaggedEntity × Passage))
    (x : TaggedEntity × Passage) (c : String) (hx : x.1.canonical_id ≠ c) :
    mkSummary (ps ++ [x]) c = mkSummary ps c := by
  unfold mkSummary
  rw [groupMembers_append_other ps x c hx]

lemma mkSummary_append_member (ps : List (TaggedEntity × Passage))
    (t : TaggedEntity) (p : Passage)
    (hne : groupMembers ps t.canonical_id ≠ []) :
    mkSummary (ps ++ [(t, p)]) t.canonical_id
      = applyMember t p (mkSummary ps t.canonical_id) := by
  unfold mkSummary applyMember
  rw [groupMembers_append_match ps (t, p) t.canonical_id rfl]
  rcases hms : groupMembers ps t.canonical_id with _ | ⟨m, ms⟩
  · exact absurd hms hne
  · simp only [List.cons_append, List.head?_cons, Option.map_some', Option.getD_some,
      List.filterMap_append, List.map_append, List.filterMap_cons, List.filterMap_nil,
      List.map_cons, List.map_nil, firstDedup_append]
    rw [← List.cons_append, firstDedup_append]
    by_cases hh : build_highlight p.text = "" <;>
      by_cases ha : t.article_id ∈
        firstDedup (m.1.article_id :: List.map (fun tp => tp.1.article_id) ms) <;>
      by_cases hm : build_highlight m.2.text = "" <;>
      simp [hh, ha, hm]

lemma mkSummary_append_fresh (ps : List (TaggedEntity × Passage))
    (t : TaggedEntity) (p : Passage)
    (hnil : groupMembers ps t.canonical_id = []) :
    mkSummary (ps ++ [(t, p)]) t.canonical_id
      = applyMember t p ⟨t.entity, t.canonical_id, t.category, [], []⟩ := by
  unfold mkSummary applyMember
  rw [groupMembers_append_match ps (t, p) t.canonical_id rfl, hnil]
  by_cases hh : build_highlight p.text = "" <;> simp [hh, firstDedup]

lemma updateSummary_append_left (cid : String) (f : TagSummary → TagSummary) :
    ∀ (acc l : List TagSummary), (∀ s ∈ acc, s.canonical_id ≠ cid) →
      updateSummary (acc ++ l) cid f = acc ++ updateSummary l cid f
  | [], l, _ => rfl
  | s :: acc, l, h => by
    simp only [List.cons_append, updateSummary]
    rw [if_neg (h s (List.mem_cons_self s acc))]
    exact congrArg (List.cons s)
      (updateSummary_append_left cid f acc l (fun x hx => h x (List.mem_cons_of_mem s hx)))

lemma updateSummary_cons_match (s : TagSummary) (rest : List TagSummary)
    (cid : String) (f : TagSummary → TagSummary) (h : s.canonical_id = cid) :
    updateSummary (s :: rest) cid f = f s :: rest := by
  simp [updateSummary, h]

lemma any_key_of_map (cids : List String) (g : String → TagSummary)
    (hg : ∀ c, (g c).canonical_id = c) (cid : String) :
    ((cids.map g).any (fun s => s.canonical_id = cid)) = cids.any (fun c => c = cid) := by
  induction cids with
  | nil => rfl
  | cons c cs ih => simp only [List.map_cons, List.any_cons, ih, hg]

lemma any_eq_mem (cids : List String) (cid : String) :
    cids.any (fun c => c = cid) = true ↔ cid ∈ cids := by
  simp [List.any_eq_true]

/-- Appending one resolved member to the pair list commutes with the
grouping-loop step. -/
lemma summarizeStep_specGroup (passages : List Passage)
    (ps : List (TaggedEntity × Passage)) (t : TaggedEntity) :
    summarizeStep passages (specGroup ps) t
      = specGroup (ps ++ ((passage_lookup passages t.passage_id).map
          (fun p => (t, p))).toList) := by
  rcases hl : passage_lookup passages t.passage_id with _ | p
  · simp [summarizeStep, hl]
  · simp only [summarizeStep, hl, Option.map_some', Option.toList_some]
    by_cases hmem : t.canonical_id ∈ firstDedup (ps.map (fun tp => tp.1.canonical_id))
    · -- existing canonical id: the first summary with that id is updated in place
      rw [if_pos (by
        rw [specGroup, any_key_of_map _ _ (fun c => rfl), any_eq_mem]
        exact hmem)]
      obtain ⟨l1, l2, hsplit⟩ := List.append_of_mem hmem
      have hnodup := firstDedup_nodup (ps.map (fun tp => tp.1.canonical_id))
      rw [hsplit] at hnodup
      have hnotl1 : t.canonical_id ∉ l1 := by
        rw [List.nodup_middle, List.nodup_cons] at hnodup
        intro hc
        exact hnodup.1 (List.mem_append_left l2 hc)
      have hnotl2 : t.canonical_id ∉ l2 := by
        rw [List.nodup_middle, List.nodup_cons] at hnodup
        intro hc
        exact hnodup.1 (List.mem_append_right l1 hc)
      have hmembers : groupMembers ps t.canonical_id ≠ [] := by
        have hmem2 := mem_firstDedup.mp hmem
        rw [List.mem_map] at hmem2
        obtain ⟨tp, htp, hcid⟩ := hmem2
        intro hc
        have : tp ∈ groupMembers ps t.canonical_id := by
          rw [groupMembers, List.mem_filter]
          exact ⟨htp, by simp [hcid]⟩
        rw [hc] at this
        exact List.not_mem_nil tp this
      have hfd : firstDedup ((ps ++ [(t, p)]).map (fun tp => tp.1.canonical_id))
          = firstDedup (ps.map (fun tp => tp.1.canonical_id)) := by
        rw [List.map_append, List.map_singleton, firstDedup_append, if_pos hmem]
      rw [specGroup, specGroup, hfd, hsplit]
      rw [List.map_append, List.map_append, List.map_cons, List.map_cons]
      rw [updateSummary_append_left t.canonical_id _ _ _
        (by
          intro s hs
          rw [List.mem_map] at hs
          obtain ⟨c, hc, rfl⟩ := hs
          intro hcon
          have hc2 : c = t.canonical_id := hcon
          exact hnotl1 (hc2 ▸ hc))]
      rw [updateSummary_cons_match (mkSummary ps t.canonical_id)
        (List.map (mkSummary ps) l2) t.canonical_id (applyMember t p) rfl]
      have hl1 : l1.map (mkSummary (ps ++ [(t, p)])) = l1.map (mkSummary ps) :=
        List.map_congr_left (fun c hc =>
          mkSummary_append_other ps (t, p) c (fun hcon => hnotl1 (hcon ▸ hc)))
      have hl2 : l2.map (mkSummary (ps ++ [(t, p)])) = l2.map (mkSummary ps) :=
        List.map_congr_left (fun c hc =>
          mkSummary_append_other ps (t, p) c (fun hcon => hnotl2 (hcon ▸ hc)))
      rw [hl1, hl2, mkSummary_append_member ps t p hmembers]
    · -- fresh canonical id: a new summary is appended and then updated
      rw [if_neg (by
        rw [specGroup, any_key_of_map _ _ (fun c => rfl)]
        intro hc
        exact hmem ((any_eq_mem _ _).mp hc))]
      have hmem2 : t.canonical_id ∉ ps.map (fun tp => tp.1.canonical_id) := by
        intro hc
        exact hmem (mem_firstDedup.mpr hc)
      have hmembers : groupMembers ps t.canonical_id = [] := by
        rw [List.mem_map] at hmem2
        rcases hg : groupMembers ps t.canonical_id with _ | ⟨m, ms⟩
        · rfl
        · exfalso
          have hm : m ∈ groupMembers ps t.canonical_id := by
            rw [hg]
            exact List.mem_cons_self m ms
          rw [groupMembers, List.mem_filter] at hm
          exact hmem2 ⟨m, hm.1, by simpa using hm.2⟩
      have hfd : firstDedup ((ps ++ [(t, p)]).map (fun tp => tp.1.canonical_id))
          = firstDedup (ps.map (fun tp => tp.1.canonical_id)) ++ [t.canonical_id] := by
        rw [List.map_append, List.map_singleton, firstDedup_append, if_neg hmem]
      rw [specGroup, specGroup, hfd, List.map_append, List.map_singleton]
      rw [updateSummary_append_left t.canonical_id _ _ _
        (by
          intro s hs
          rw [List.mem_map] at hs
          obtain ⟨c, hc, rfl⟩ := hs
          intro hcon
          have hc2 : c = t.canonical_id := hcon
          exact hmem (hc2 ▸ hc))]
      rw [updateSummary_cons_match ⟨t.entity, t.canonical_id, t.category, [], []⟩
        [] t.canonical_id (applyMember t p) rfl]
      have hps : (firstDedup (ps.map (fun tp => tp.1.canonical_id))).map
            (mkSummary (ps ++ [(t, p)]))
          = (firstDedup (ps.map (fun tp => tp.1.canonical_id))).map (mkSummary ps) :=
        List.map_congr_left (fun c hc =>
          mkSummary_append_other ps (t, p) c (fun hcon => hmem (hcon ▸ hc)))
      rw [hps, mkSummary_append_fresh ps t p hmembers]

lemma resolvedPairs_append (tags : List TaggedEntity) (t : TaggedEntity)
    (passages : List Passage) :
    resolvedPairs (tags ++ [t]) passages
      = resolvedPairs tags passages
        ++ ((passage_lookup passages t.passage_id).map (fun p => (t, p))).toList := by
  unfold resolvedPairs
  rw [List.filterMap_append]
  congr 1

/-- The grouping loop of the rule-mode summarizer computes exactly the
claim-side group-by. -/
lemma summarize_rule_eq_specGroup (tags : List TaggedEntity)
    (passages : List Passage) :
    summarize_tags_rule tags passages = specGroup (resolvedPairs tags passages) := by
  induction tags using List.reverseRecOn with
  | nil => rfl
  | append_singleton l t ih =>
    unfold summarize_tags_rule at ih ⊢
    rw [List.foldl_append, List.foldl_cons, List.foldl_nil, ih,
      summarizeStep_specGroup, resolvedPairs_append]

/-- C4: the rule-mode summarizer emits exactly one summary per distinct
canonical id among the tagged entities whose passage resolves, in first-seen
order (the full group-by equation); tag and category are seeded by the first
resolved member of the group; unresolvable members are skipped (they do not
appear among the resolved pairs); and each summary's article-id list is the
first-occurrence deduplication of its members' article ids — no duplicates,
insertion order. -/
theorem C4_summarizer_grouping (tags : List TaggedEntity) (passages : List Passage) :
    summarize_tags_rule tags passages = specGroup (resolvedPairs tags passages)
    ∧ (summarize_tags_rule tags passages).map (fun s => s.canonical_id)
        = firstDedup ((resolvedPairs tags passages).map (fun tp => tp.1.canonical_id))
    ∧ ∀ s, s ∈ summarize_tags_rule tags passages →
        s.article_ids.Nodup
        ∧ s.article_ids = firstDedup ((groupMembers (resolvedPairs tags passages)
            s.canonical_id).map (fun tp => tp.1.article_id))
        ∧ ∃ tp, (groupMembers (resolvedPairs tags passages) s.canonical_id).head? = some tp
            ∧ s.tag = tp.1.entity ∧ s.category = tp.1.category := by
  refine ⟨summarize_rule_eq_specGroup tags passages, ?_, ?_⟩
  · rw [summarize_rule_eq_specGroup, specGroup_map_canonical]
  · intro s hs
    rw [summarize_rule_eq_specGroup, specGroup] at hs
    rw [List.mem_map] at hs
    obtain ⟨c, hc, rfl⟩ := hs
    have hcm : c ∈ (resolvedPairs tags passages).map (fun tp => tp.1.canonical_id) :=
      mem_firstDedup.mp hc
    rw [List.mem_map] at hcm
    obtain ⟨tp0, htp0, hcid0⟩ := hcm
    rcases hg : groupMembers (resolvedPairs tags passages) c with _ | ⟨m, ms⟩
    · exfalso
      have : tp0 ∈ groupMembers (resolvedPairs tags passages) c := by
        rw [groupMembers, List.mem_filter]
        exact ⟨htp0, by simp [hcid0]⟩
      rw [hg] at this
      exact List.not_mem_nil tp0 this
    · refine ⟨firstDedup_nodup _, rfl, ⟨m, ?_, ?_, ?_⟩⟩
      · show (groupMembers (resolvedPairs tags passages) c).head? = some m
        rw [hg]
        rfl
      · show (mkSummary (resolvedPairs tags passages) c).tag = m.1.entity
        rw [mkSummary]
        simp only [hg, List.head?_cons, Option.map_some', Option.getD_some]
      · show (mkSummary (resolvedPairs tags passages) c).category = m.1.category
        rw [mkSummary]
        simp only [hg, List.head?_cons, Option.map_some', Option.getD_some]

/-- Witness for C4 at a concrete tagged entity and passage. -/
theorem C4_summarizer_grouping_witness :
    ((⟨"E", "C", "X", ["hi"], ["a1"]⟩ : TagSummary)
        ∈ summarize_tags_rule [⟨"E", "C", "X", "p1", "a1"⟩] [⟨"p1", "a1", 1, "hi"⟩])
    ∧ ((⟨"E", "C", "X", ["hi"], ["a1"]⟩ : TagSummary).article_ids.Nodup
      ∧ (⟨"E", "C", "X", ["hi"], ["a1"]⟩ : TagSummary).article_ids
          = firstDedup ((groupMembers
              (resolvedPairs [⟨"E", "C", "X", "p1", "a1"⟩] [⟨"p1", "a1", 1, "hi"⟩])
              (⟨"E", "C", "X", ["hi"], ["a1"]⟩ : TagSummary).canonical_id).map
              (fun tp => tp.1.article_id))
      ∧ ∃ tp, (groupMembers
            (resolvedPairs [⟨"E", "C", "X", "p1", "a1"⟩] [⟨"p1", "a1", 1, "hi"⟩])
            (⟨"E", "C", "X", ["hi"], ["a1"]⟩ : TagSummary).canonical_id).head? = some tp
          ∧ (⟨"E", "C", "X", ["hi"], ["a1"]⟩ : TagSummary).tag = tp.1.entity
          ∧ (⟨"E", "C", "X", ["hi"], ["a1"]⟩ : TagSummary).category = tp.1.category) :=
  ⟨by decide,
    (C4_summarizer_grouping [⟨"E", "C", "X", "p1", "a1"⟩] [⟨"p1", "a1", 1, "hi"⟩]).2.2
      ⟨"E", "C", "X", ["hi"], ["a1"]⟩ (by decide)⟩

/-! ## C6: emitted summaries and consumer validation -/

/-- Refutation of C6 as stated: a tagged entity whose resolved passage has
empty text yields an emitted summary with an empty highlight list — the
rule-mode summarizer performs no validation of its own. -/
theorem C6_counterexample :
    summarize_tags_rule [⟨"E", "C", "X", "p1", "a1"⟩] [⟨"p1", "a1", 1, ""⟩]
        = [⟨"E", "C", "X", [], ["a1"]⟩]
      ∧ (⟨"E", "C", "X", [], ["a1"]⟩ : TagSummary).highlights = [] := by
  constructor
  · decide
  · rfl

/-- C6 amended: every emitted summary has at least one article-id entry,
but may lack highlights; the ranking consumer independently validates,
accepting exactly the summaries with a non-blank highlight and a non-empty
article id (and dropping the others, never fatally — validation is a total
function). -/
theorem C6_validation_defense (tags : List TaggedEntity) (passages : List Passage)
    (summary : TagSummary) :
    (∀ s, s ∈ summarize_tags_rule tags passages → s.article_ids ≠ [])
    ∧ (∀ v, validate_summary summary = some v →
        v.highlights ≠ [] ∧ v.article_ids ≠ []
        ∧ (∀ h ∈ v.highlights, pyStrip h ≠ "") ∧ (∀ a ∈ v.article_ids, a ≠ ""))
    ∧ (validate_summary summary = none
        ↔ summary.highlights.filter (fun t => pyStrip t ≠ "") = []
          ∨ summary.article_ids.filter (fun a => a ≠ "") = []) := by
  refine ⟨?_, ?_, ?_⟩
  · intro s hs
    rw [summarize_rule_eq_specGroup, specGroup, List.mem_map] at hs
    obtain ⟨c, hc, rfl⟩ := hs
    have hcm : c ∈ (resolvedPairs tags passages).map (fun tp => tp.1.canonical_id) :=
      mem_firstDedup.mp hc
    rw [List.mem_map] at hcm
    obtain ⟨tp0, htp0, hcid0⟩ := hcm
    rcases hg : groupMembers (resolvedPairs tags passages) c with _ | ⟨m, ms⟩
    · exfalso
      have : tp0 ∈ groupMembers (resolvedPairs tags passages) c := by
        rw [groupMembers, List.mem_filter]
        exact ⟨htp0, by simp [hcid0]⟩
      rw [hg] at this
      exact List.not_mem_nil tp0 this
    · intro h0
      have hmm : m.1.article_id ∈ (mkSummary (resolvedPairs tags passages) c).article_ids := by
        show m.1.article_id ∈ firstDedup
          ((groupMembers (resolvedPairs tags passages) c).map (fun tp => tp.1.article_id))
        rw [hg]
        exact mem_firstDedup.mpr (by simp)
      rw [h0] at hmm
      exact List.not_mem_nil _ hmm
  · intro v hv
    unfold validate_summary at hv
    by_cases hcond : summary.highlights.filter (fun t => pyStrip t ≠ "") = []
        ∨ summary.article_ids.filter (fun a => a ≠ "") = []
    · rw [if_pos hcond] at hv
      exact absurd hv (by simp)
    · rw [if_neg hcond] at hv
      push_neg at hcond
      have hv2 := Option.some.inj hv
      subst hv2
      refine ⟨hcond.1, hcond.2, ?_, ?_⟩
      · intro h hh
        simpa using (List.mem_filter.mp hh).2
      · intro a ha
        simpa using (List.mem_filter.mp ha).2
  · unfold validate_summary
    by_cases hcond : summary.highlights.filter (fun t => pyStrip t ≠ "") = []
        ∨ summary.article_ids.filter (fun a => a ≠ "") = []
    · rw [if_pos hcond]
      simp only [true_iff]
      exact hcond
    · rw [if_neg hcond]
      push_neg at hcond
      constructor
      · intro hC
        exact absurd hC (by simp)
      · intro hC
        rcases hC with h | h
        · exact absurd h hcond.1
        · exact absurd h hcond.2

/-- Witness for the amended C6 at a concrete run. -/
theorem C6_validation_defense_witness :
    ((⟨"E", "C", "X", ["hi"], ["a1"]⟩ : TagSummary)
        ∈ summarize_tags_rule [⟨"E", "C", "X", "p1", "a1"⟩] [⟨"p1", "a1", 1, "hi"⟩]
      ∧ (⟨"E", "C", "X", ["hi"], ["a1"]⟩ : TagSummary).article_ids ≠ [])
    ∧ (validate_summary ⟨"T", "Q", "c", [" ", "x"], ["", "a2"]⟩
        = some ⟨"T", "Q", "c", ["x"], ["a2"]⟩
      ∧ ((⟨"T", "Q", "c", ["x"], ["a2"]⟩ : TagSummary).highlights ≠ []
        ∧ (⟨"T", "Q", "c", ["x"], ["a2"]⟩ : TagSummary).article_ids ≠ []
        ∧ (∀ h ∈ (⟨"T", "Q", "c", ["x"], ["a2"]⟩ : TagSummary).highlights, pyStrip h ≠ "")
        ∧ (∀ a ∈ (⟨"T", "Q", "c", ["x"], ["a2"]⟩ : TagSummary).article_ids, a ≠ ""))) :=
  ⟨⟨by decide,
      (C6_validation_defense [⟨"E", "C", "X", "p1", "a1"⟩] [⟨"p1", "a1", 1, "hi"⟩]
        ⟨"E", "C", "X", ["hi"], ["a1"]⟩).1 ⟨"E", "C", "X", ["hi"], ["a1"]⟩ (by decide)⟩,
    by decide,
    (C6_validation_defense [] [] ⟨"T", "Q", "c", [" ", "x"], ["", "a2"]⟩).2.1
      ⟨"T", "Q", "c", ["x"], ["a2"]⟩ (by decide)⟩

/-! ## C8: monotonicity of the additive score -/

lemma round3_mono {x y : ℝ} (h : x ≤ y) : round3 x ≤ round3 y := by
  unfold round3
  have hr : round (1000 * x) ≤ round (1000 * y) := by
    rw [round_eq, round_eq]
    exact Int.floor_mono (by linarith)
  have hc : ((round (1000 * x) : ℤ) : ℚ) ≤ ((round (1000 * y) : ℤ) : ℚ) := by
    exact_mod_cast hr
  linarith

/-- C8: the additive ranking score — and therefore also its rounded stored
value — is monotonically non-decreasing in highlight density, in the
recency weight, and in turning on each of the four independent match
bonuses, all other factors held fixed. -/
theorem C8_score_monotone (topic entity keyword fav : Bool)
    (hs hs' recency recency' : ℝ) (hhs : hs ≤ hs') (hrec : recency ≤ recency') :
    (scoreParts topic entity keyword fav hs recency
        ≤ scoreParts topic entity keyword fav hs' recency
      ∧ round3 (scoreParts topic entity keyword fav hs recency)
        ≤ round3 (scoreParts topic entity keyword fav hs' recency))
    ∧ (scoreParts topic entity keyword fav hs recency
        ≤ scoreParts topic entity keyword fav hs recency'
      ∧ round3 (scoreParts topic entity keyword fav hs recency)
        ≤ round3 (scoreParts topic entity keyword fav hs recency'))
    ∧ (scoreParts false entity keyword fav hs recency
        ≤ scoreParts true entity keyword fav hs recency
      ∧ round3 (scoreParts false entity keyword fav hs recency)
        ≤ round3 (scoreParts true entity keyword fav hs recency))
    ∧ (scoreParts topic false keyword fav hs recency
        ≤ scoreParts topic true keyword fav hs recency
      ∧ round3 (scoreParts topic false keyword fav hs recency)
        ≤ round3 (scoreParts topic true keyword fav hs recency))
    ∧ (scoreParts topic entity false fav hs recency
        ≤ scoreParts topic entity true fav hs recency
      ∧ round3 (scoreParts topic entity false fav hs recency)
        ≤ round3 (scoreParts topic entity true fav hs recency))
    ∧ (scoreParts topic entity keyword false hs recency
        ≤ scoreParts topic entity keyword true hs recency
      ∧ round3 (scoreParts topic entity keyword false hs recency)
        ≤ round3 (scoreParts topic entity keyword true hs recency)) := by
  have h1 : scoreParts topic entity keyword fav hs recency
      ≤ scoreParts topic entity keyword fav hs' recency := by
    unfold scoreParts
    linarith
  have h2 : scoreParts topic entity keyword fav hs recency
      ≤ scoreParts topic entity keyword fav hs recency' := by
    unfold scoreParts
    linarith
  have h3 : scoreParts false entity keyword fav hs recency
      ≤ scoreParts true entity keyword fav hs recency := by
    unfold scoreParts
    by_cases hk : keyword = true <;> (simp [hk]; try linarith)
  have h4 : scoreParts topic false keyword fav hs recency
      ≤ scoreParts topic true keyword fav hs recency := by
    unfold scoreParts
    have e1 : (if (false = true) then (1.2 : ℝ) else 0) = 0 := if_neg (by simp)
    have e2 : (if (true = true) then (1.2 : ℝ) else 0) = 1.2 := if_pos rfl
    rw [e1, e2]
    linarith
  have h5 : scoreParts topic entity false fav hs recency
      ≤ scoreParts topic entity true fav hs recency := by
    unfold scoreParts
    by_cases ht : topic = true <;> (simp [ht]; try linarith)
  have h6 : scoreParts topic entity keyword false hs recency
      ≤ scoreParts topic entity keyword true hs recency := by
    unfold scoreParts
    simp only [Bool.false_eq_true, if_neg, if_pos]
    by_cases hk : (keyword ∧ ¬topic) <;> (simp [hk]; try linarith)
  exact ⟨⟨h1, round3_mono h1⟩, ⟨h2, round3_mono h2⟩, ⟨h3, round3_mono h3⟩,
    ⟨h4, round3_mono h4⟩, ⟨h5, round3_mono h5⟩, ⟨h6, round3_mono h6⟩⟩

/-- Witness for C8 at concrete factor values. -/
theorem C8_score_monotone_witness :
    ((0 : ℝ) ≤ 1) ∧
    (scoreParts true false false false (0 : ℝ) (0 : ℝ)
        ≤ scoreParts true false false false (1 : ℝ) (0 : ℝ)
      ∧ round3 (scoreParts true false false false (0 : ℝ) (0 : ℝ))
        ≤ round3 (scoreParts true false false false (1 : ℝ) (0 : ℝ))) :=
  ⟨by norm_num,
    (C8_score_monotone true false false false 0 1 0 1 (by norm_num) (by norm_num)).1⟩

/-! ## C9: dependence of ranking on the internally read clock -/

/-- C9 divergence witness: the ranking output genuinely depends on the
wall-clock instant read inside personalize_and_rank — the same profile,
summaries and articles produce different ranked stories at two different
clock readings, and the Python signature offers no parameter to pin the
clock. -/
theorem C9_now_dependence :
    personalize_and_rank ⟨[], [], [], []⟩ [⟨"T", "C", "c", ["w"], ["a1"]⟩]
        (some [⟨"a1", "s", "ti", "u", some 0, "au", "co"⟩]) 0
      ≠ personalize_and_rank ⟨[], [], [], []⟩ [⟨"T", "C", "c", ["w"], ["a1"]⟩]
        (some [⟨"a1", "s", "ti", "u", some 0, "au", "co"⟩]) 3600000000 := by
  have hproj : ∀ now : ℝ,
      (rank_candidates ⟨[], [], [], []⟩ [⟨"T", "C", "c", ["w"], ["a1"]⟩]
        (some [⟨"a1", "s", "ti", "u", some 0, "au", "co"⟩]) now).map
          (fun r => (r.article_id, r.score))
      = [("a1", round3 (claimScore ⟨[], [], [], []⟩ ⟨"T", "C", "c", ["w"], ["a1"]⟩
          (some [⟨"a1", "s", "ti", "u", some 0, "au", "co"⟩]) now "a1"))] := by
    intro now
    rw [rank_candidates_proj]
    rfl
  have hval : ∀ now : ℝ, claimScore ⟨[], [], [], []⟩ ⟨"T", "C", "c", ["w"], ["a1"]⟩
      (some [⟨"a1", "s", "ti", "u", some 0, "au", "co"⟩]) now "a1"
      = 0.6 + 0.8 * ((1 : ℝ) / 80)
        + 0.7 * Real.exp (-(max ((now - 0) / 3600) 0) / 48) := by
    intro now
    simp only [claimScore, ensure_str_set, List.filterMap_nil, List.any_nil,
      Option.getD_some, Bool.false_eq_true, if_false, false_and,
      show article_lookup [(⟨"a1", "s", "ti", "u", some 0, "au", "co"⟩ : Article)] "a1"
        = some ⟨"a1", "s", "ti", "u", some 0, "au", "co"⟩ from rfl,
      show (pyWords (pyJoin " " ["w"])).length = 1 from rfl, Nat.cast_one,
      show ([] : List String).contains (pyLower "T") = false from rfl,
      show ([] : List String).contains (pyLower "s") = false from rfl]
    rw [min_eq_left (by norm_num : (1 : ℝ) / 80 ≤ 1)]
    norm_num
  have hA : round3 (claimScore ⟨[], [], [], []⟩ ⟨"T", "C", "c", ["w"], ["a1"]⟩
      (some [⟨"a1", "s", "ti", "u", some 0, "au", "co"⟩]) 0 "a1") = 131/100 := by
    rw [hval 0]
    have hz : -(max (((0 : ℝ) - 0) / 3600) 0) / 48 = 0 := by norm_num
    rw [hz, Real.exp_zero]
    unfold round3
    have h1000 : (1000 : ℝ) * (0.6 + 0.8 * ((1 : ℝ) / 80) + 0.7 * 1) = 1310 := by norm_num
    rw [h1000]
    norm_num
  have hB : round3 (claimScore ⟨[], [], [], []⟩ ⟨"T", "C", "c", ["w"], ["a1"]⟩
      (some [⟨"a1", "s", "ti", "u", some 0, "au", "co"⟩]) 3600000000 "a1") = 61/100 := by
    rw [hval 3600000000]
    have hmax : max ((((3600000000 : ℝ)) - 0) / 3600) 0 = 1000000 := by
      rw [max_eq_left (by norm_num)]
      norm_num
    rw [hmax]
    have hpos : 0 < Real.exp (-(1000000 : ℝ) / 48) := Real.exp_pos _
    have hband : Real.exp (-(1000000 : ℝ) / 48) ≤ 1/20001 := by
      have h1 : Real.exp (-(1000000 : ℝ) / 48) ≤ Real.exp (-20000) :=
        Real.exp_le_exp.mpr (by norm_num)
      have h2 : (20001 : ℝ) ≤ Real.exp 20000 := by
        have := Real.add_one_le_exp (20000 : ℝ)
        linarith
      have h3 : Real.exp (-(20000 : ℝ)) ≤ 1/20001 := by
        rw [Real.exp_neg, one_div]
        exact inv_anti₀ (by norm_num) h2
      linarith
    unfold round3
    have hround : round ((1000 : ℝ) * (0.6 + 0.8 * ((1 : ℝ) / 80)
        + 0.7 * Real.exp (-(1000000 : ℝ) / 48))) = 610 := by
      rw [round_eq, Int.floor_eq_iff]
      constructor
      · push_cast
        linarith
      · push_cast
        linarith
    rw [hround]
    norm_num
  have hout : ∀ (now : ℝ) (q : ℚ),
      round3 (claimScore ⟨[], [], [], []⟩ ⟨"T", "C", "c", ["w"], ["a1"]⟩
        (some [⟨"a1", "s", "ti", "u", some 0, "au", "co"⟩]) now "a1") = q →
      ((personalize_and_rank ⟨[], [], [], []⟩ [⟨"T", "C", "c", ["w"], ["a1"]⟩]
        (some [⟨"a1", "s", "ti", "u", some 0, "au", "co"⟩]) now).2).map
          (fun r => (r.article_id, r.score)) = [("a1", q)] := by
    intro now q hq
    simp only [personalize_and_rank]
    have hperm := (List.mergeSort_perm (rank_candidates ⟨[], [], [], []⟩
        [⟨"T", "C", "c", ["w"], ["a1"]⟩]
        (some [⟨"a1", "s", "ti", "u", some 0, "au", "co"⟩]) now)
      (fun a b : RankedStory => decide (b.score ≤ a.score))).map
        (fun r => (r.article_id, r.score))
    rw [hproj now, hq] at hperm
    exact List.perm_singleton.mp hperm
  intro heq
  have h2 := congrArg (fun pr : String × List RankedStory =>
    pr.2.map (fun r => (r.article_id, r.score))) heq
  simp only at h2
  rw [hout 0 (131/100) hA, hout 3600000000 (61/100) hB] at h2
  norm_num at h2

/-! ## C10: the registered ranking tool versus the scoring engine -/

/-- The candidate list of rank_stories, projected to article id and score,
equals the claim-side expression: every summary (unvalidated) expands to
its non-empty, non-blocked article ids, scored 1.0 plus the topic bonus. -/
lemma rank_stories_proj (profile : ReaderProfile)
    (summaries : List TagSummary) (articles : Option (List Article)) :
    (rank_stories_candidates profile summaries articles).map
        (fun r => (r.article_id, r.score))
      = summaries.flatMap (fun s =>
          (s.article_ids.filter
            (fun aid => !(claimBlockedR profile articles aid) && aid ≠ "")).map
            (fun aid => (aid, claimScoreR profile s))) := by
  unfold rank_stories_candidates
  rw [List.map_flatMap]
  apply List.flatMap_congr
  intro s _
  rw [map_filterMap_eq_filter_map _ _
    (fun aid => !(claimBlockedR profile articles aid))
    (fun aid => (aid, claimScoreR profile s)) _ ?_]
  · rw [List.filter_filter]
  · intro aid _
    rcases hart : dictGet Article.id (articles.getD []) aid with _ | a
    · simp only [claimBlockedR, hart]
      rw [if_pos (show (!false) = true from rfl), Option.map_some']
      refine congrArg some (congrArg (Prod.mk aid) ?_)
      unfold claimScoreR
      by_cases htop : (profile.preferred_topics.map pyLower).any
          (fun t => pyContains (pyLower s.category) t) = true
      · simp only [htop]
        norm_num
      · rw [Bool.not_eq_true] at htop
        simp only [htop]
        norm_num
    · simp only [claimBlockedR, hart]
      by_cases hblk : (profile.blocked_sources.map pyLower).contains (pyLower a.source)
          = true
      · rw [if_pos hblk]
        rw [if_neg (show ¬((!(profile.blocked_sources.map pyLower).contains
            (pyLower a.source)) = true) from by rw [hblk]; exact Bool.false_ne_true)]
        rfl
      · rw [Bool.not_eq_true] at hblk
        rw [if_neg (show ¬((profile.blocked_sources.map pyLower).contains
            (pyLower a.source) = true) from by rw [hblk]; exact Bool.false_ne_true)]
        rw [if_pos (show (!(profile.blocked_sources.map pyLower).contains
            (pyLower a.source)) = true from by rw [hblk]; rfl), Option.map_some']
        refine congrArg some (congrArg (Prod.mk aid) ?_)
        unfold claimScoreR
        by_cases htop : (profile.preferred_topics.map pyLower).any
            (fun t => pyContains (pyLower s.category) t) = true
        · simp only [htop]
          norm_num
        · rw [Bool.not_eq_true] at htop
          simp only [htop]
          norm_num

/-- Refutation of C10: the MCP-registered ranking tool rank_stories does
not reproduce personalize_and_rank — at the same input the two return
different result keys and different scores (1 versus 0.62 for a plain
summary with no matching preferences and no articles). -/
theorem C10_counterexample :
    rank_stories ⟨[], [], [], []⟩ [⟨"T", "C", "c", ["hello world"], ["a1"]⟩] none
        ≠ personalize_and_rank ⟨[], [], [], []⟩
          [⟨"T", "C", "c", ["hello world"], ["a1"]⟩] none 0
    ∧ ((rank_stories ⟨[], [], [], []⟩
        [⟨"T", "C", "c", ["hello world"], ["a1"]⟩] none).2).map
          (fun r => (r.article_id, r.score)) = [("a1", 1)]
    ∧ ((personalize_and_rank ⟨[], [], [], []⟩
        [⟨"T", "C", "c", ["hello world"], ["a1"]⟩] none 0).2).map
          (fun r => (r.article_id, r.score)) = [("a1", 31/50)] := by
  have hproj : (rank_candidates ⟨[], [], [], []⟩
      [⟨"T", "C", "c", ["hello world"], ["a1"]⟩] none 0).map
        (fun r => (r.article_id, r.score))
      = [("a1", round3 (claimScore ⟨[], [], [], []⟩
          ⟨"T", "C", "c", ["hello world"], ["a1"]⟩ none 0 "a1"))] := by
    rw [rank_candidates_proj]
    rfl
  have hcs : claimScore ⟨[], [], [], []⟩ ⟨"T", "C", "c", ["hello world"], ["a1"]⟩
      none 0 "a1" = 0.6 + 0.8 * ((2 : ℝ) / 80) := by
    simp only [claimScore, ensure_str_set, List.filterMap_nil, List.any_nil,
      Option.getD_none, Bool.false_eq_true, if_false, false_and,
      show article_lookup [] "a1" = none from rfl,
      show (pyWords (pyJoin " " ["hello world"])).length = 2 from rfl,
      show ([] : List String).contains (pyLower "T") = false from rfl, Nat.cast_ofNat]
    rw [min_eq_left (by norm_num : (2 : ℝ) / 80 ≤ 1)]
    norm_num
  have hr3 : round3 ((0.6 : ℝ) + 0.8 * ((2 : ℝ) / 80)) = 31/50 := by
    unfold round3
    have h1000 : (1000 : ℝ) * ((0.6 : ℝ) + 0.8 * ((2 : ℝ) / 80)) = 620 := by norm_num
    rw [h1000]
    norm_num
  have hpr : ((personalize_and_rank ⟨[], [], [], []⟩
      [⟨"T", "C", "c", ["hello world"], ["a1"]⟩] none 0).2).map
        (fun r => (r.article_id, r.score)) = [("a1", 31/50)] := by
    simp only [personalize_and_rank]
    have hperm := (List.mergeSort_perm (rank_candidates ⟨[], [], [], []⟩
        [⟨"T", "C", "c", ["hello world"], ["a1"]⟩] none 0)
      (fun a b : RankedStory => decide (b.score ≤ a.score))).map
        (fun r => (r.article_id, r.score))
    rw [hproj, hcs, hr3] at hperm
    exact List.perm_singleton.mp hperm
  have hrs : ((rank_stories ⟨[], [], [], []⟩
      [⟨"T", "C", "c", ["hello world"], ["a1"]⟩] none).2).map
        (fun r => (r.article_id, r.score)) = [("a1", 1)] := by
    simp only [rank_stories]
    have hperm := (List.mergeSort_perm (rank_stories_candidates ⟨[], [], [], []⟩
        [⟨"T", "C", "c", ["hello world"], ["a1"]⟩] none)
      (fun a b : RankedStory => decide (b.score ≤ a.score))).map
        (fun r => (r.article_id, r.score))
    rw [show (rank_stories_candidates ⟨[], [], [], []⟩
        [⟨"T", "C", "c", ["hello world"], ["a1"]⟩] none).map
          (fun r => (r.article_id, r.score)) = [("a1", 1)] from by
        rw [rank_stories_proj]
        rfl] at hperm
    exact List.perm_singleton.mp hperm
  refine ⟨?_, hrs, hpr⟩
  intro h
  have h1 := congrArg Prod.fst h
  simp only [rank_stories, personalize_and_rank] at h1
  exact absurd h1 (by decide)

/-- C10 amended: the function registered as the MCP ranking tool is the
independent rule scorer rank_stories: its result key is "ranked_summaries"
and its candidates are the non-empty article ids of each summary (no
summary validation), dropped when the backing article's lowercased source
is blocked, each scored 1.0 plus a 1.0 preferred-topic bonus — not the
personalize_and_rank scoring model. -/
theorem C10_rank_stories_characterisation (profile : ReaderProfile)
    (summaries : List TagSummary) (articles : Option (List Article)) :
    (rank_stories profile summaries articles).1 = "ranked_summaries"
    ∧ (rank_stories_candidates profile summaries articles).map
        (fun r => (r.article_id, r.score))
      = summaries.flatMap (fun s =>
          (s.article_ids.filter
            (fun aid => !(claimBlockedR profile articles aid) && aid ≠ "")).map
            (fun aid => (aid, claimScoreR profile s))) :=
  ⟨rfl, rank_stories_proj profile summaries articles⟩

end Newsroom
